import Mathlib

/-!
# Health-statistics reporting of the brightcloud web-categorisation plugin

A shallow embedding of `fsm_bc_service.c` (OSYNC 2.0.8.0 reference tree) and
theorems about its delta computation, its report scheduling, its
configuration update, its session registry and its initialization.

Conventions of the embedding

* The structures are declared in headers that are not part of the source
  tree; each is modelled with the fields that `fsm_bc_service.c` uses.
* The counters of `struct fsm_url_stats` are taken as `int64_t`, which the
  source narrows with `(uint32_t)` casts.  A counter is held as the integer it
  denotes; an `int64_t` sum or difference is wrapped by `wrapI64`, a
  conversion to `uint32_t` is `toU32`.
* The fields of `struct wc_health_stats` are `uint32_t` (the source prints
  them with `%u`); they are held as natural numbers and every operation on
  them reduces modulo `2 ^ 32`.
* `time_t` values are held as integers (seconds); the difference of two clock
  readings is not wrapped.
* A pointer is the number it holds (`uintptr_t`); `none` is `NULL`.
* What the C code reads from its collaborators (`time`, `fsm_bc_get_stats`,
  `dns_cache_get_hit_count`, `ops.get_config`, `fsm_bc_init`, `calloc`) is an
  argument of the embedded function; what it hands to `ops.send_pb_report` is
  returned.
* The ordered tree of `ds_tree.h` is held as the list of its (key, node)
  pairs in key order; a plugin session is an entry of the heap of `Mem`.
-/

namespace FsmBc

/-! ## Machine integers -/

/-- The largest `long` (LP64). -/
def LONG_MAX : Int := 9223372036854775807

/-- Value of an `int64_t` expression whose exact result is `x`
(two's-complement wrap-around). -/
def wrapI64 (x : Int) : Int :=
  (x + 9223372036854775808) % 18446744073709551616 - 9223372036854775808

/-- Conversion of an integer value to `uint32_t`. -/
def toU32 (x : Int) : Nat :=
  (x % 4294967296).toNat

/-- Addition of two `uint32_t` values. -/
def u32_add (a b : Nat) : Nat :=
  (a + b) % 4294967296

/-- Subtraction of two `uint32_t` values. -/
def u32_sub (a b : Nat) : Nat :=
  (a % 4294967296 + (4294967296 - b % 4294967296)) % 4294967296

/-- Conversion of an `unsigned long` value to `int` (32 bits, two's
complement). -/
def toInt32 (x : Nat) : Int :=
  ((x : Int) + 2147483648) % 4294967296 - 2147483648

/-! ## Data model -/

/-- Pointer values (`uintptr_t`). -/
abbrev Ptr := Nat

/-- Modelled from the spec: the counter snapshot of the categorisation engine,
`struct fsm_url_stats`, whose declaration is not in the source tree.  It has
the fields that `fsm_bc_service.c` reads or writes, each the integer value of
an `int64_t`. -/
structure fsm_url_stats where
  cloud_lookups : Int
  cache_lookups : Int
  cache_hits : Int
  categorization_failures : Int
  uncategorized : Int
  cache_entries : Int
  cache_size : Int
  min_lookup_latency : Int
  max_lookup_latency : Int
  avg_lookup_latency : Int
deriving DecidableEq, Repr

/-- Modelled from the spec: the delta and gauge fields of one report,
`struct wc_health_stats`, whose declaration is not in the source tree.  It has
the fields that `bc_report_compute_health_stats` assigns, each a `uint32_t`. -/
structure wc_health_stats where
  total_lookups : Nat
  cache_hits : Nat
  remote_lookups : Nat
  connectivity_failures : Nat
  service_failures : Nat
  uncategorized : Nat
  min_latency : Nat
  max_latency : Nat
  avg_latency : Nat
  cached_entries : Nat
  cache_size : Nat
deriving DecidableEq, Repr

/-- Modelled from the spec: the side-channel counter of connectivity failures,
`struct fsm_bc_offline`, whose declaration is not in the source tree.  Only
the accumulator `connection_failures` is used by `fsm_bc_service.c`. -/
structure fsm_bc_offline where
  connection_failures : Int
deriving DecidableEq, Repr

/-- Modelled from the spec: the per-session state, `struct fsm_bc_session`,
whose declaration is not in the source tree, with the fields that
`fsm_bc_service.c` uses.  `session` is the back pointer to the host session,
`health_stats` the stored baseline, `stat_report_ts` the window start. -/
structure fsm_bc_session where
  session : Option Ptr
  initialized : Bool
  bc_offline : fsm_bc_offline
  health_stats : fsm_url_stats
  min_latency : Int
  health_stats_report_interval : Int
  health_stats_report_topic : Option String
  stat_report_ts : Int
deriving DecidableEq, Repr

/-- The all-zero counters (`memset (&stats, 0, sizeof stats)`). -/
def fsm_url_stats.zero : fsm_url_stats :=
  { cloud_lookups := 0, cache_lookups := 0, cache_hits := 0,
    categorization_failures := 0, uncategorized := 0, cache_entries := 0,
    cache_size := 0, min_lookup_latency := 0, max_lookup_latency := 0,
    avg_lookup_latency := 0 }

/-- The all-zero plugin session (`calloc (1, sizeof *bc_session)`). -/
def fsm_bc_session.zero : fsm_bc_session :=
  { session := none, initialized := false,
    bc_offline := { connection_failures := 0 },
    health_stats := fsm_url_stats.zero, min_latency := 0,
    health_stats_report_interval := 0, health_stats_report_topic := none,
    stat_report_ts := 0 }

/-! ## Delta computation -/

/-- The function `bc_report_compute_health_stats`: computes the health
statistics `hs` from the engine counters `stats`, the stored counters of the
session and the hit count of the DNS cache
(`dns_cache_get_hit_count (IP2ACTION_BC_SVC)`), and stores the new baseline in
the session.  The statements are taken in source order: `prev_X` is the value
of `prev_stats->X` that the statement reads, `new_X` the one it stores.  Every
field of `hs` is assigned, so the result does not depend on what `hs` held
before. -/
def bc_report_compute_health_stats (bc_session : fsm_bc_session)
    (stats : fsm_url_stats) (dns_cache_get_hit_count : Nat) :
    fsm_bc_session × wc_health_stats :=
  let prev_stats := bc_session.health_stats
  let dns_cache_hits : Nat := dns_cache_get_hit_count % 4294967296
  -- Compute total lookups
  let count0 := u32_add (toU32 (wrapI64 (stats.cloud_lookups + stats.cache_hits)))
    dns_cache_hits
  let total_lookups := u32_sub count0
    (toU32 (wrapI64 (prev_stats.cloud_lookups + prev_stats.cache_hits)))
  let new_cache_lookups := stats.cache_lookups
  -- Compute cache hits
  let cache_hits := u32_add (toU32 (wrapI64 (stats.cache_hits - prev_stats.cache_hits)))
    dns_cache_hits
  let new_cache_hits := wrapI64 (stats.cache_hits + (dns_cache_hits : Int))
  -- Compute remote_lookups
  let remote_lookups := toU32 (wrapI64 (stats.cloud_lookups - prev_stats.cloud_lookups))
  let new_cloud_lookups := stats.cloud_lookups
  -- Compute connectivity_failures
  let connectivity_failures := toU32 bc_session.bc_offline.connection_failures
  let new_connection_failures : Int := 0
  -- Compute service_failures
  let service_failures := toU32 (wrapI64 (stats.categorization_failures
    - prev_stats.categorization_failures))
  let new_categorization_failures := stats.categorization_failures
  -- Compute uncategorized requests
  let uncategorized := toU32 (wrapI64 (stats.uncategorized - prev_stats.uncategorized))
  let new_uncategorized := stats.uncategorized
  -- Latencies and cache gauges
  let min_latency := toU32 stats.min_lookup_latency
  let max_latency := toU32 stats.max_lookup_latency
  let avg_latency := toU32 stats.avg_lookup_latency
  let cached_entries := toU32 stats.cache_entries
  let cache_size := toU32 stats.cache_size
  ({ session := bc_session.session
     initialized := bc_session.initialized
     bc_offline := { connection_failures := new_connection_failures }
     health_stats :=
       { cloud_lookups := new_cloud_lookups
         cache_lookups := new_cache_lookups
         cache_hits := new_cache_hits
         categorization_failures := new_categorization_failures
         uncategorized := new_uncategorized
         cache_entries := prev_stats.cache_entries
         cache_size := prev_stats.cache_size
         min_lookup_latency := prev_stats.min_lookup_latency
         max_lookup_latency := prev_stats.max_lookup_latency
         avg_lookup_latency := prev_stats.avg_lookup_latency }
     min_latency := bc_session.min_latency
     health_stats_report_interval := bc_session.health_stats_report_interval
     health_stats_report_topic := bc_session.health_stats_report_topic
     stat_report_ts := bc_session.stat_report_ts },
   { total_lookups := total_lookups
     cache_hits := cache_hits
     remote_lookups := remote_lookups
     connectivity_failures := connectivity_failures
     service_failures := service_failures
     uncategorized := uncategorized
     min_latency := min_latency
     max_latency := max_latency
     avg_latency := avg_latency
     cached_entries := cached_entries
     cache_size := cache_size })

/-! ## Host session, manager and memory -/

/-- Modelled from the spec: the host session, `struct fsm_session`, whose
declaration is not in the source tree, with the fields the plugin uses.
`handler_ctxt` is the pointer to the plugin session, `get_config` the
accessor `ops.get_config (session, key)` (`none` is `NULL`).  `ops_set` tells
that `ops.periodic`, `ops.update` and `ops.exit` are the functions of this
plugin, `cat_ops_set` that the three `web_cat_ops` of `p_ops` are. -/
structure fsm_session where
  name : String
  location_id : String
  node_id : String
  handler_ctxt : Option Ptr
  get_config : String → Option String
  ops_set : Bool := false
  cat_ops_set : Bool := false

/-- Modelled from the spec: the session registry, `struct fsm_bc_mgr`, whose
declaration is not in the source tree.  The tree `fsm_sessions` is held as the
list of its nodes in key order: the key is the pointer to the host session,
the node the pointer to the plugin session. -/
structure fsm_bc_mgr where
  initialized : Bool
  fsm_sessions : List (Ptr × Ptr)
deriving DecidableEq, Repr

/-- State of the plugin: the static manager `cache_mgr` and the allocated
plugin sessions by address (`none`: no plugin session lives there). -/
structure Mem where
  cache_mgr : fsm_bc_mgr
  heap : Ptr → Option fsm_bc_session

/-- Write through a pointer to a plugin session. -/
def Mem.store (m : Mem) (p : Ptr) (bc : fsm_bc_session) : Mem :=
  { m with heap := fun q => if q = p then some bc else m.heap q }

/-- Modelled from the spec: the observation window of a report,
`struct wc_observation_window`, whose declaration is not in the source tree. -/
structure wc_observation_window where
  started_at : Int
  ended_at : Int
deriving DecidableEq, Repr

/-- Modelled from the spec: the observation point of a report,
`struct wc_observation_point`, whose declaration is not in the source tree. -/
structure wc_observation_point where
  location_id : String
  node_id : String
deriving DecidableEq, Repr

/-- Modelled from the spec: the report envelope handed to the serializer,
`struct wc_stats_report`, whose declaration is not in the source tree. -/
structure wc_stats_report where
  provider : String
  op : wc_observation_point
  ow : wc_observation_window
  health_stats : wc_health_stats
deriving DecidableEq, Repr

/-- One call of `ops.send_pb_report`: the topic and the report that was
serialized. -/
structure pb_report where
  topic : Option String
  report : wc_stats_report
deriving DecidableEq, Repr

/-! ## Report and scheduler -/

/-- The function `bc_report_health_stats`: builds the report of the window
that ends at `now`, moves the window start to `now`, computes the health
statistics and sends the report.  `session` is the host session that
`fsm_bc_session->session` points to. -/
def bc_report_health_stats (bc_session : fsm_bc_session) (session : fsm_session)
    (stats : fsm_url_stats) (dns_cache_get_hit_count : Nat) (now : Int) :
    fsm_bc_session × pb_report :=
  let op : wc_observation_point :=
    { location_id := session.location_id, node_id := session.node_id }
  let ow : wc_observation_window :=
    { started_at := bc_session.stat_report_ts, ended_at := now }
  let bc_session := { bc_session with stat_report_ts := now }
  let r := bc_report_compute_health_stats bc_session stats dns_cache_get_hit_count
  let report : wc_stats_report :=
    { provider := session.name, op := op, ow := ow, health_stats := r.2 }
  (r.1, { topic := r.1.health_stats_report_topic, report := report })

/-- The function `fsm_bc_periodic`.  `now` is the value of `time (NULL)`,
`stats` what `fsm_bc_get_stats` fills in and `dns_cache_get_hit_count` the hit
count of the DNS cache at this tick.  The result is the new state and the
reports sent.  `cmp_report` is a `double` in the source: the difference of two
clock readings and an interval that went through an `int` convert exactly, so
the comparison is the one of the integers.  A context pointer at which no
plugin session lives is not followed. -/
def fsm_bc_periodic (m : Mem) (session : fsm_session) (now : Int)
    (stats : fsm_url_stats) (dns_cache_get_hit_count : Nat) : Mem × List pb_report :=
  match session.handler_ctxt with
  | none => (m, [])
  | some p =>
    if m.cache_mgr.initialized = false then (m, [])
    else
      match m.heap p with
      | none => (m, [])
      | some bc_session =>
        let cmp_report := now - bc_session.stat_report_ts
        let get_stats : Bool := decide (cmp_report ≥ bc_session.health_stats_report_interval)
        if get_stats then
          let r := bc_report_health_stats bc_session session stats dns_cache_get_hit_count now
          (m.store p r.1, [r.2])
        else (m, [])

/-! ## Configuration update -/

/-- The constant `BC_REPORT_HEALTH_STATS_INTERVAL`, `60*10` seconds. -/
def BC_REPORT_HEALTH_STATS_INTERVAL : Int := 60 * 10

/-- The C library predicate `isspace` in the C locale. -/
def isspace (c : Char) : Bool :=
  c.toNat = 32 || (9 ≤ c.toNat && c.toNat ≤ 13)

/-- The C library predicate `isdigit`. -/
def isdigit (c : Char) : Bool :=
  48 ≤ c.toNat && c.toNat ≤ 57

/-- Value of the longest prefix of decimal digits, continuing from `acc`. -/
def strtoul_digits : List Char → Nat → Nat
  | [], acc => acc
  | c :: cs, acc =>
    if isdigit c then strtoul_digits cs (10 * acc + (c.toNat - 48)) else acc

/-- The text after the white space and the optional sign that `strtoul`
skips. -/
def strtoul_body (cs : List Char) : List Char :=
  match cs.dropWhile isspace with
  | [] => []
  | c :: r => if c.toNat = 43 ∨ c.toNat = 45 then r else c :: r

/-- Whether `strtoul` reads a minus sign. -/
def strtoul_neg (cs : List Char) : Bool :=
  match cs.dropWhile isspace with
  | [] => false
  | c :: _ => decide (c.toNat = 45)

/-- The C library function `strtoul (nptr, NULL, 10)` with a 64-bit
`unsigned long`: leading white space and one optional sign are skipped, the
longest run of digits is converted, no digit at all gives 0, a value out of
range gives `ULONG_MAX`, and a minus sign negates in `unsigned long`. -/
def strtoul (nptr : String) : Nat :=
  let v := strtoul_digits (strtoul_body nptr.toList) 0
  if v ≥ 18446744073709551616 then 18446744073709551615
  else if strtoul_neg nptr.toList then (18446744073709551616 - v) % 18446744073709551616
  else v

/-- The function `fsm_bc_update`: re-reads the report interval and the report
topic from the configuration of the host session.  A context pointer at which
no plugin session lives is not followed. -/
def fsm_bc_update (m : Mem) (session : fsm_session) : Mem :=
  match session.handler_ctxt with
  | none => m
  | some p =>
    match m.heap p with
    | none => m
    | some bc_session =>
      let bc_session :=
        { bc_session with health_stats_report_interval := BC_REPORT_HEALTH_STATS_INTERVAL }
      let hs_report_interval := session.get_config "wc_health_stats_interval_secs"
      let bc_session :=
        match hs_report_interval with
        | none => bc_session
        | some str =>
          let interval : Int := toInt32 (strtoul str)
          { bc_session with health_stats_report_interval := interval }
      let hs_report_topic := session.get_config "wc_health_stats_topic"
      m.store p { bc_session with health_stats_report_topic := hs_report_topic }

/-! ## Session registry -/

/-- The function `fsm_bc_session_cmp`: compares two host session pointers by
the numbers they hold. -/
def fsm_bc_session_cmp (a b : Ptr) : Int :=
  let p_a := a
  let p_b := b
  if p_a = p_b then 0
  else if p_a < p_b then -1
  else 1

/-- Modelled from the spec: `ds_tree_find` of the ordered-tree library
(`ds_tree.h`, not in the source tree), the lookup of the ordered map from
session identity to session: the node linked under a key that compares equal
to `key`, if there is one. -/
def ds_tree_find (cmp : Ptr → Ptr → Int) : List (Ptr × Ptr) → Ptr → Option Ptr
  | [], _ => none
  | e :: rest, key => if cmp key e.1 = 0 then some e.2 else ds_tree_find cmp rest key

/-- Modelled from the spec: `ds_tree_insert` of the ordered-tree library
(`ds_tree.h`, not in the source tree): links `node` under `key`, keeping the
nodes in the order of `cmp`. -/
def ds_tree_insert (cmp : Ptr → Ptr → Int) :
    List (Ptr × Ptr) → Ptr → Ptr → List (Ptr × Ptr)
  | [], node, key => [(key, node)]
  | e :: rest, node, key =>
    if cmp key e.1 < 0 then (key, node) :: e :: rest
    else e :: ds_tree_insert cmp rest node key

/-- Modelled from the spec: `ds_tree_remove` of the ordered-tree library
(`ds_tree.h`, not in the source tree): unlinks `node`. -/
def ds_tree_remove (tree : List (Ptr × Ptr)) (node : Ptr) : List (Ptr × Ptr) :=
  tree.filter (fun e => decide (e.2 ≠ node))

/-- Release of the plugin session at `p` (`free`). -/
def Mem.free (m : Mem) (p : Ptr) : Mem :=
  { m with heap := fun q => if q = p then none else m.heap q }

/-- Update in place of the plugin session at `p`; a pointer at which no plugin
session lives is not followed. -/
def Mem.modify (m : Mem) (p : Ptr) (f : fsm_bc_session → fsm_bc_session) : Mem :=
  match m.heap p with
  | none => m
  | some bc => m.store p (f bc)

/-- The state before the first call: the static `cache_mgr` is not
initialized and no plugin session is allocated. -/
def Mem.initial : Mem :=
  { cache_mgr := { initialized := false, fsm_sessions := [] }, heap := fun _ => none }

/-- The function `fsm_bc_lookup_session`: the plugin session linked under the
host session pointer `session`, allocated and linked when there is none.
`calloc` is the result of `calloc (1, sizeof (*bc_session))`: `none` for
`NULL`, else the address of the zeroed block. -/
def fsm_bc_lookup_session (m : Mem) (session : Ptr) (calloc : Option Ptr) :
    Mem × Option Ptr :=
  let sessions := m.cache_mgr.fsm_sessions
  match ds_tree_find fsm_bc_session_cmp sessions session with
  | some bc_session => (m, some bc_session)
  | none =>
    match calloc with
    | none => (m, none)
    | some bc_session =>
      ({ cache_mgr :=
           { m.cache_mgr with
             fsm_sessions := ds_tree_insert fsm_bc_session_cmp sessions bc_session session }
         heap := fun q => if q = bc_session then some fsm_bc_session.zero else m.heap q },
        some bc_session)

/-- The function `fsm_bc_free_session`. -/
def fsm_bc_free_session (m : Mem) (bc_session : Ptr) : Mem :=
  m.free bc_session

/-- The function `fsm_bc_delete_session`: unlinks and frees the plugin session
linked under the host session pointer `session`, if there is one. -/
def fsm_bc_delete_session (m : Mem) (session : Ptr) : Mem :=
  let sessions := m.cache_mgr.fsm_sessions
  match ds_tree_find fsm_bc_session_cmp sessions session with
  | none => m
  | some bc_session =>
    fsm_bc_free_session
      { m with
        cache_mgr := { m.cache_mgr with fsm_sessions := ds_tree_remove sessions bc_session } }
      bc_session

/-- The function `fsm_bc_exit`. -/
def fsm_bc_exit (m : Mem) (session : Ptr) : Mem :=
  if m.cache_mgr.initialized = false then m
  else fsm_bc_delete_session m session

/-- The function `brightcloud_plugin_init`.  `session` is `none` for a `NULL`
pointer, else the address of the host session and the host session itself;
`fsm_bc_init` is the result of the call `fsm_bc_init (session)`, `calloc` the
result of the allocation in `fsm_bc_lookup_session`, `now` the value of
`time (NULL)`.  The result is the new state, the host session as the call
leaves it, and the returned code.  A node pointer at which no plugin session
lives is not followed. -/
def brightcloud_plugin_init (m : Mem) (session : Option (Ptr × fsm_session))
    (fsm_bc_init : Bool) (calloc : Option Ptr) (now : Int) :
    Mem × Option fsm_session × Int :=
  match session with
  | none => (m, none, -1)
  | some (sp, s) =>
    -- Initialize the manager on first call
    let mgr_ready : Option Mem :=
      if m.cache_mgr.initialized = false then
        if fsm_bc_init = false then none
        else some { m with cache_mgr := { initialized := true, fsm_sessions := [] } }
      else some m
    match mgr_ready with
    | none => (m, some s, 0)
    | some m1 =>
      -- Look up the fsm bc session
      match fsm_bc_lookup_session m1 sp calloc with
      | (m2, none) => (m2, some s, -1)
      | (m2, some p) =>
        match m2.heap p with
        | none => (m2, some s, -1)
        | some bc_session =>
          -- Bail if the session is already initialized
          if bc_session.initialized = true then (m2, some s, 0)
          else
            let s1 : fsm_session := { s with ops_set := true, handler_ctxt := some p }
            let m3 := m2.store p { bc_session with session := some sp }
            let m4 := fsm_bc_update m3 s1
            let m5 := m4.modify p (fun bc => { bc with stat_report_ts := now })
            let s2 : fsm_session := { s1 with cat_ops_set := true }
            let m6 := m5.modify p
              (fun bc => { bc with min_latency := LONG_MAX, initialized := true })
            let m7 := m6.modify p
              (fun bc => { bc with bc_offline := { connection_failures := 0 } })
            (m7, some s2, 0)

/-- The plugin session linked under the host session pointer `session`. -/
def session_of (m : Mem) (session : Ptr) : Option Ptr :=
  ds_tree_find fsm_bc_session_cmp m.cache_mgr.fsm_sessions session

/-- The host session pointers that have a plugin session, in tree order. -/
def registry_keys (m : Mem) : List Ptr :=
  m.cache_mgr.fsm_sessions.map Prod.fst

/-- The plugin sessions linked in the tree, in tree order. -/
def registry_nodes (m : Mem) : List Ptr :=
  m.cache_mgr.fsm_sessions.map Prod.snd

/-- Well-formed registry: no host session pointer is linked twice, no plugin
session is linked twice, and every linked plugin session is allocated. -/
def registry_wf (m : Mem) : Prop :=
  (registry_keys m).Nodup ∧ (registry_nodes m).Nodup
    ∧ ∀ n ∈ registry_nodes m, (m.heap n).isSome = true

/-! ## Runs -/

/-- Reports computed from a sequence of snapshots (engine counters and DNS
cache hit count), one call of `bc_report_compute_health_stats` each, in
order. -/
def compute_run (bc : fsm_bc_session) :
    List (fsm_url_stats × Nat) → fsm_bc_session × List wc_health_stats
  | [] => (bc, [])
  | s :: rest =>
    let r := bc_report_compute_health_stats bc s.1 s.2
    let t := compute_run r.1 rest
    (t.1, r.2 :: t.2)

/-- One tick of the host: the clock, the engine counters and the DNS cache hit
count that `fsm_bc_periodic` reads. -/
structure tick where
  now : Int
  stats : fsm_url_stats
  dns_cache_hits : Nat
deriving DecidableEq, Repr

/-- Reports sent by a sequence of calls of `fsm_bc_periodic` on one host
session, in order. -/
def periodic_run (m : Mem) (session : fsm_session) : List tick → Mem × List pb_report
  | [] => (m, [])
  | t :: rest =>
    let r := fsm_bc_periodic m session t.now t.stats t.dns_cache_hits
    let u := periodic_run r.1 session rest
    (u.1, r.2 ++ u.2)

/-- Sum, as an integer, of one counter over a list of reports. -/
def delta_sum (f : wc_health_stats → Nat) (l : List wc_health_stats) : Int :=
  (l.map (fun h => ((f h : Nat) : Int))).sum

/-- Last value of a cumulative counter that starts at `b` and then takes the
values of the list (`b` itself when the list is empty). -/
def last_value (b : Int) : List Int → Int
  | [] => b
  | x :: xs => last_value x xs

/-- The values of the list never decrease and start at or above `b`. -/
def nondecreasing (b : Int) : List Int → Bool
  | [] => true
  | x :: xs => decide (b ≤ x) && nondecreasing x xs

/-- Every value of the list exceeds the one before it, the first one `b`, by
less than `2 ^ 32`: the growth of each interval fits a `uint32_t`. -/
def steps_below (b : Int) : List Int → Bool
  | [] => true
  | x :: xs => decide (x - b < 4294967296) && steps_below x xs

/-- Differences of consecutive values, each reduced modulo `2 ^ 32`, of a
cumulative counter that starts at `b`. -/
def wrapped_deltas (b : Int) : List Int → List Int
  | [] => []
  | x :: xs => (x - b) % 4294967296 :: wrapped_deltas x xs

/-- Cumulative cloud lookups of a snapshot. -/
def cum_cloud_lookups (s : fsm_url_stats × Nat) : Int := s.1.cloud_lookups

/-- Cumulative categorisation failures of a snapshot. -/
def cum_categorization_failures (s : fsm_url_stats × Nat) : Int :=
  s.1.categorization_failures

/-- Cumulative uncategorized responses of a snapshot. -/
def cum_uncategorized (s : fsm_url_stats × Nat) : Int := s.1.uncategorized

/-- Cumulative cache hits of a snapshot: the cache hits of the engine plus the
hit counter of the auxiliary (DNS) cache. -/
def cum_cache_hits (s : fsm_url_stats × Nat) : Int := s.1.cache_hits + (s.2 : Int)

/-! ## Example states -/

/-- Stored baseline of the scenarios: 100 cache hits and 20 cloud lookups. -/
def ex_baseline : fsm_url_stats :=
  { fsm_url_stats.zero with cache_hits := 100, cloud_lookups := 20 }

/-- Snapshot of the scenarios: 150 cache hits and 25 cloud lookups. -/
def ex_snapshot : fsm_url_stats :=
  { fsm_url_stats.zero with cache_hits := 150, cloud_lookups := 25 }

/-- A baseline whose four cumulative counters are 10. -/
def ex_baseline_ten : fsm_url_stats :=
  { fsm_url_stats.zero with
    cache_hits := 10, cloud_lookups := 10, categorization_failures := 10,
    uncategorized := 10 }

/-- A snapshot taken after a restart of the engine: the four cumulative
counters are 5, below the baseline `ex_baseline_ten`. -/
def ex_snapshot_five : fsm_url_stats :=
  { fsm_url_stats.zero with
    cache_hits := 5, cloud_lookups := 5, categorization_failures := 5,
    uncategorized := 5 }

/-- A plugin session with the stored baseline `b`. -/
def session_with_baseline (b : fsm_url_stats) : fsm_bc_session :=
  { fsm_bc_session.zero with health_stats := b }

/-- Two snapshots whose cloud lookups grow by 4294967295 each, from the
all-zero baseline to 8589934590. -/
def ex_long_run : List (fsm_url_stats × Nat) :=
  [({ fsm_url_stats.zero with cloud_lookups := 4294967295 }, 0),
   ({ fsm_url_stats.zero with cloud_lookups := 8589934590 }, 0)]

/-- Three snapshots with growing counters, for the baseline `ex_baseline`. -/
def ex_growing : List (fsm_url_stats × Nat) :=
  [(ex_snapshot, 5),
   ({ fsm_url_stats.zero with cache_hits := 170, cloud_lookups := 40 }, 9),
   ({ fsm_url_stats.zero with cache_hits := 171, cloud_lookups := 40 }, 9)]

/-- A host session with plugin session at address `16` and the configuration
`conf`. -/
def host_session (conf : String → Option String) : fsm_session :=
  { name := "brightcloud", location_id := "loc", node_id := "node",
    handler_ctxt := some 16, get_config := conf }

/-- A host session without configuration. -/
def ex_host_session : fsm_session :=
  host_session (fun _ => none)

/-- A state with an initialized manager whose one plugin session `bc` lives at
address `16` and is keyed by the host session at address `8`. -/
def ex_mem (bc : fsm_bc_session) : Mem :=
  { cache_mgr := { initialized := true, fsm_sessions := [(8, 16)] },
    heap := fun q => if q = 16 then some bc else none }

/-- An initialized plugin session with report interval `interval` and window
start `ts`. -/
def ex_bc_session (interval ts : Int) : fsm_bc_session :=
  { fsm_bc_session.zero with
    initialized := true, min_latency := LONG_MAX,
    health_stats_report_interval := interval, stat_report_ts := ts }

/-- A configuration whose interval key holds `value` and that has no topic. -/
def conf_interval (value : String) : String → Option String :=
  fun key => if key = "wc_health_stats_interval_secs" then some value else none

/-- Interval of the plugin session at address `p`, when there is one. -/
def interval_at (m : Mem) (p : Ptr) : Option Int :=
  (m.heap p).map (fun bc => bc.health_stats_report_interval)

/-- Window start of the plugin session at address `p`, when there is one. -/
def window_start_at (m : Mem) (p : Ptr) : Option Int :=
  (m.heap p).map (fun bc => bc.stat_report_ts)

/-- Observation windows of a list of sent reports, as pairs (start, end). -/
def windows (l : List pb_report) : List (Int × Int) :=
  l.map (fun r => (r.report.ow.started_at, r.report.ow.ended_at))

/-- Whether `strtoul` finds no digit to convert in `str`: after the white
space and the optional sign the text is empty or starts with a character that
is not a digit. -/
def no_conversion (str : String) : Bool :=
  match strtoul_body str.toList with
  | [] => true
  | c :: _ => !isdigit c

/-- Three ticks inside the window that starts at 2500 and lasts 600 s. -/
def ex_ticks : List tick :=
  [{ now := 2500, stats := ex_snapshot, dns_cache_hits := 4 },
   { now := 2800, stats := ex_snapshot, dns_cache_hits := 9 },
   { now := 3099, stats := ex_snapshot, dns_cache_hits := 9 }]

/-- Stored baseline of the plugin session at address `p`, when there is
one. -/
def baseline_at (m : Mem) (p : Ptr) : Option fsm_url_stats :=
  (m.heap p).map (fun bc => bc.health_stats)

/-- A plugin session whose connectivity-failure accumulator holds `n`. -/
def session_with_failures (n : Int) : fsm_bc_session :=
  { fsm_bc_session.zero with bc_offline := { connection_failures := n } }

/-- A state with three plugin sessions: the host sessions at 3, 8 and 12 have
their plugin sessions at 32, 16 and 48; the one at 16 has the stored baseline
`ex_baseline_ten`, window start 100 and 7 connectivity failures. -/
def ex_registry : Mem :=
  { cache_mgr := { initialized := true, fsm_sessions := [(3, 32), (8, 16), (12, 48)] },
    heap := fun q =>
      if q = 16 then
        some { ex_bc_session 600 100 with
               health_stats := ex_baseline_ten, bc_offline := { connection_failures := 7 } }
      else if q = 32 then some (ex_bc_session 600 0)
      else if q = 48 then some (ex_bc_session 600 0)
      else none }

/-- A state with an initialized manager and no plugin session. -/
def ex_empty_registry : Mem :=
  { cache_mgr := { initialized := true, fsm_sessions := [] }, heap := fun _ => none }

theorem toU32_wrapI64 (x : Int) : toU32 (wrapI64 x) = toU32 x := by
  unfold toU32 wrapI64
  omega

theorem toU32_cast (x : Int) : ((toU32 x : Nat) : Int) = x % 4294967296 := by
  unfold toU32
  omega

theorem u32_add_toU32 (x : Int) (a : Nat) :
    ((u32_add (toU32 x) (a % 4294967296) : Nat) : Int) = (x + (a : Int)) % 4294967296 := by
  unfold u32_add toU32
  omega

theorem u32_sub_cast (c : Nat) (y : Int) :
    ((u32_sub c (toU32 y) : Nat) : Int) = ((c : Int) - y) % 4294967296 := by
  unfold u32_sub toU32
  omega

/-- The five deltas of a report, as integers: the counters of the report are
the differences against the stored baseline reduced modulo `2 ^ 32`. -/
theorem compute_deltas (bc : fsm_bc_session) (stats : fsm_url_stats) (aux : Nat) :
    (((bc_report_compute_health_stats bc stats aux).2.total_lookups : Nat) : Int)
        = ((stats.cache_hits + stats.cloud_lookups + (aux : Int))
            - (bc.health_stats.cache_hits + bc.health_stats.cloud_lookups)) % 4294967296
    ∧ (((bc_report_compute_health_stats bc stats aux).2.cache_hits : Nat) : Int)
        = ((stats.cache_hits - bc.health_stats.cache_hits) + (aux : Int)) % 4294967296
    ∧ (((bc_report_compute_health_stats bc stats aux).2.remote_lookups : Nat) : Int)
        = (stats.cloud_lookups - bc.health_stats.cloud_lookups) % 4294967296
    ∧ (((bc_report_compute_health_stats bc stats aux).2.service_failures : Nat) : Int)
        = (stats.categorization_failures - bc.health_stats.categorization_failures)
            % 4294967296
    ∧ (((bc_report_compute_health_stats bc stats aux).2.uncategorized : Nat) : Int)
        = (stats.uncategorized - bc.health_stats.uncategorized) % 4294967296 := by
  simp only [bc_report_compute_health_stats, toU32_wrapI64, toU32_cast, u32_add_toU32,
    u32_sub_cast]
  refine ⟨?_, trivial, trivial, trivial, trivial⟩
  omega

/-! ## Telescoping sums -/

theorem wrapped_deltas_congr (b c : Int) (xs : List Int)
    (h : b % 4294967296 = c % 4294967296) : wrapped_deltas b xs = wrapped_deltas c xs := by
  cases xs with
  | nil => rfl
  | cons x xs =>
    simp only [wrapped_deltas]
    congr 1
    omega

theorem sum_wrapped_deltas_mod (xs : List Int) :
    ∀ b : Int, (wrapped_deltas b xs).sum % 4294967296
      = (last_value b xs - b) % 4294967296 := by
  induction xs with
  | nil => intro b; simp [wrapped_deltas, last_value]
  | cons x xs ih =>
    intro b
    have h := ih x
    simp only [wrapped_deltas, last_value, List.sum_cons]
    omega

theorem sum_wrapped_deltas_le (xs : List Int) :
    ∀ b : Int, nondecreasing b xs = true →
      (wrapped_deltas b xs).sum ≤ last_value b xs - b := by
  induction xs with
  | nil => intro b _; simp [wrapped_deltas, last_value]
  | cons x xs ih =>
    intro b h
    simp only [nondecreasing, Bool.and_eq_true, decide_eq_true_eq] at h
    have hs := ih x h.2
    simp only [wrapped_deltas, last_value, List.sum_cons]
    omega

theorem sum_wrapped_deltas_exact_iff (xs : List Int) :
    ∀ b : Int, nondecreasing b xs = true →
      ((wrapped_deltas b xs).sum = last_value b xs - b ↔ steps_below b xs = true) := by
  induction xs with
  | nil => intro b _; simp [wrapped_deltas, last_value, steps_below]
  | cons x xs ih =>
    intro b h
    simp only [nondecreasing, Bool.and_eq_true, decide_eq_true_eq] at h
    have hle := sum_wrapped_deltas_le xs x h.2
    have hiff := ih x h.2
    simp only [wrapped_deltas, last_value, List.sum_cons, steps_below, Bool.and_eq_true,
      decide_eq_true_eq]
    constructor
    · intro heq
      have h1 : x - b < 4294967296 := by omega
      have h2 : (wrapped_deltas x xs).sum = last_value x xs - x := by omega
      exact ⟨h1, hiff.1 h2⟩
    · intro hst
      have h2 := hiff.2 hst.2
      have h1 := hst.1
      omega

theorem compute_run_remote_lookups (snaps : List (fsm_url_stats × Nat)) :
    ∀ bc : fsm_bc_session,
      (compute_run bc snaps).2.map (fun h => ((h.remote_lookups : Nat) : Int))
        = wrapped_deltas bc.health_stats.cloud_lookups (snaps.map cum_cloud_lookups) := by
  induction snaps with
  | nil => intro bc; rfl
  | cons s rest ih =>
    intro bc
    have h := (compute_deltas bc s.1 s.2).2.2.1
    simp only [compute_run, List.map_cons, wrapped_deltas, ih, h, cum_cloud_lookups]
    rfl

theorem compute_run_service_failures (snaps : List (fsm_url_stats × Nat)) :
    ∀ bc : fsm_bc_session,
      (compute_run bc snaps).2.map (fun h => ((h.service_failures : Nat) : Int))
        = wrapped_deltas bc.health_stats.categorization_failures
            (snaps.map cum_categorization_failures) := by
  induction snaps with
  | nil => intro bc; rfl
  | cons s rest ih =>
    intro bc
    have h := (compute_deltas bc s.1 s.2).2.2.2.1
    simp only [compute_run, List.map_cons, wrapped_deltas, ih, h, cum_categorization_failures]
    rfl

theorem compute_run_uncategorized (snaps : List (fsm_url_stats × Nat)) :
    ∀ bc : fsm_bc_session,
      (compute_run bc snaps).2.map (fun h => ((h.uncategorized : Nat) : Int))
        = wrapped_deltas bc.health_stats.uncategorized (snaps.map cum_uncategorized) := by
  induction snaps with
  | nil => intro bc; rfl
  | cons s rest ih =>
    intro bc
    have h := (compute_deltas bc s.1 s.2).2.2.2.2
    simp only [compute_run, List.map_cons, wrapped_deltas, ih, h, cum_uncategorized]
    rfl

theorem stored_cache_hits_mod (bc : fsm_bc_session) (stats : fsm_url_stats) (aux : Nat) :
    (bc_report_compute_health_stats bc stats aux).1.health_stats.cache_hits % 4294967296
      = (stats.cache_hits + (aux : Int)) % 4294967296 := by
  simp only [bc_report_compute_health_stats, wrapI64]
  omega

theorem compute_run_cache_hits (snaps : List (fsm_url_stats × Nat)) :
    ∀ bc : fsm_bc_session,
      (compute_run bc snaps).2.map (fun h => ((h.cache_hits : Nat) : Int))
        = wrapped_deltas bc.health_stats.cache_hits (snaps.map cum_cache_hits) := by
  induction snaps with
  | nil => intro bc; rfl
  | cons s rest ih =>
    intro bc
    have h := (compute_deltas bc s.1 s.2).2.1
    have hb := stored_cache_hits_mod bc s.1 s.2
    have hc := wrapped_deltas_congr _ _ (rest.map cum_cache_hits) hb
    simp only [compute_run, List.map_cons, wrapped_deltas, ih, h, cum_cache_hits, hc]
    congr 1
    omega

/-! ## Claims on the delta computation -/

/-- C1: for every stored baseline, engine snapshot and auxiliary hit count the
report holds, modulo 2^32, total_lookups = (snapshot.cache_hits +
snapshot.cloud_lookups + auxHits) - (baseline.cache_hits +
baseline.cloud_lookups), cache_hits = (snapshot.cache_hits -
baseline.cache_hits) + auxHits, remote_lookups = snapshot.cloud_lookups -
baseline.cloud_lookups, service_failures and uncategorized the differences of
their counters; and baseline (100 cache hits, 20 cloud lookups), snapshot
(150, 25), auxHits 5 gives cache_hits 55, remote_lookups 5, total_lookups 60,
whatever the other fields of the session and of the snapshot are. -/
theorem C1_compute_health_stats_deltas :
    (∀ (bc : fsm_bc_session) (stats : fsm_url_stats) (auxHits : Nat),
      (((bc_report_compute_health_stats bc stats auxHits).2.total_lookups : Nat) : Int)
          = ((stats.cache_hits + stats.cloud_lookups + (auxHits : Int))
              - (bc.health_stats.cache_hits + bc.health_stats.cloud_lookups)) % 4294967296
      ∧ (((bc_report_compute_health_stats bc stats auxHits).2.cache_hits : Nat) : Int)
          = ((stats.cache_hits - bc.health_stats.cache_hits) + (auxHits : Int)) % 4294967296
      ∧ (((bc_report_compute_health_stats bc stats auxHits).2.remote_lookups : Nat) : Int)
          = (stats.cloud_lookups - bc.health_stats.cloud_lookups) % 4294967296
      ∧ (((bc_report_compute_health_stats bc stats auxHits).2.service_failures : Nat) : Int)
          = (stats.categorization_failures - bc.health_stats.categorization_failures)
              % 4294967296
      ∧ (((bc_report_compute_health_stats bc stats auxHits).2.uncategorized : Nat) : Int)
          = (stats.uncategorized - bc.health_stats.uncategorized) % 4294967296)
    ∧ (∀ (bc : fsm_bc_session) (stats : fsm_url_stats),
      (bc_report_compute_health_stats
          { bc with health_stats :=
              { bc.health_stats with cache_hits := 100, cloud_lookups := 20 } }
          { stats with cache_hits := 150, cloud_lookups := 25 } 5).2.cache_hits = 55
      ∧ (bc_report_compute_health_stats
          { bc with health_stats :=
              { bc.health_stats with cache_hits := 100, cloud_lookups := 20 } }
          { stats with cache_hits := 150, cloud_lookups := 25 } 5).2.remote_lookups = 5
      ∧ (bc_report_compute_health_stats
          { bc with health_stats :=
              { bc.health_stats with cache_hits := 100, cloud_lookups := 20 } }
          { stats with cache_hits := 150, cloud_lookups := 25 } 5).2.total_lookups = 60) := by
  refine ⟨fun bc stats auxHits => compute_deltas bc stats auxHits, fun bc stats => ?_⟩
  refine ⟨?_, ?_, ?_⟩ <;> simp only [bc_report_compute_health_stats] <;> decide

/-- C2, counterexample: with the four cumulative counters of the baseline at
10 and those of the snapshot at 5 (auxiliary hit count 0), every emitted delta
is 4294967291, the difference wrapped modulo 2^32, and not the raw snapshot
value 5. -/
theorem C2_no_clamp_counterexample :
    (bc_report_compute_health_stats (session_with_baseline ex_baseline_ten)
        ex_snapshot_five 0).2.remote_lookups = 4294967291
    ∧ (bc_report_compute_health_stats (session_with_baseline ex_baseline_ten)
        ex_snapshot_five 0).2.service_failures = 4294967291
    ∧ (bc_report_compute_health_stats (session_with_baseline ex_baseline_ten)
        ex_snapshot_five 0).2.uncategorized = 4294967291
    ∧ (bc_report_compute_health_stats (session_with_baseline ex_baseline_ten)
        ex_snapshot_five 0).2.cache_hits = 4294967291
    ∧ (bc_report_compute_health_stats (session_with_baseline ex_baseline_ten)
        ex_snapshot_five 0).2.remote_lookups ≠ toU32 ex_snapshot_five.cloud_lookups
    ∧ ex_snapshot_five.cloud_lookups < ex_baseline_ten.cloud_lookups := by
  decide

/-- C2, amended: when a cumulative counter of the snapshot is strictly less
than its stored baseline value, the delta emitted for the field is the
difference snapshot - baseline wrapped modulo 2^32 (with the auxiliary hit
count added for cache_hits): it is 2^32 - (baseline - snapshot) when the
regression is below 2^32, it is below 2^32 and never negative, and it is not
clamped to the raw snapshot value. -/
theorem C2_regressed_counter_wraps (bc : fsm_bc_session) (stats : fsm_url_stats)
    (auxHits : Nat) :
    (stats.cloud_lookups < bc.health_stats.cloud_lookups →
      (((bc_report_compute_health_stats bc stats auxHits).2.remote_lookups : Nat) : Int)
          = (stats.cloud_lookups - bc.health_stats.cloud_lookups) % 4294967296
      ∧ (bc.health_stats.cloud_lookups - stats.cloud_lookups < 4294967296 →
          (((bc_report_compute_health_stats bc stats auxHits).2.remote_lookups : Nat) : Int)
            = 4294967296 - (bc.health_stats.cloud_lookups - stats.cloud_lookups)))
    ∧ (stats.categorization_failures < bc.health_stats.categorization_failures →
      (((bc_report_compute_health_stats bc stats auxHits).2.service_failures : Nat) : Int)
          = (stats.categorization_failures - bc.health_stats.categorization_failures)
              % 4294967296
      ∧ (bc.health_stats.categorization_failures - stats.categorization_failures
            < 4294967296 →
          (((bc_report_compute_health_stats bc stats auxHits).2.service_failures : Nat) : Int)
            = 4294967296
              - (bc.health_stats.categorization_failures - stats.categorization_failures)))
    ∧ (stats.uncategorized < bc.health_stats.uncategorized →
      (((bc_report_compute_health_stats bc stats auxHits).2.uncategorized : Nat) : Int)
          = (stats.uncategorized - bc.health_stats.uncategorized) % 4294967296
      ∧ (bc.health_stats.uncategorized - stats.uncategorized < 4294967296 →
          (((bc_report_compute_health_stats bc stats auxHits).2.uncategorized : Nat) : Int)
            = 4294967296 - (bc.health_stats.uncategorized - stats.uncategorized)))
    ∧ (stats.cache_hits < bc.health_stats.cache_hits →
      (((bc_report_compute_health_stats bc stats auxHits).2.cache_hits : Nat) : Int)
          = (stats.cache_hits - bc.health_stats.cache_hits + (auxHits : Int)) % 4294967296
      ∧ (auxHits = 0 → bc.health_stats.cache_hits - stats.cache_hits < 4294967296 →
          (((bc_report_compute_health_stats bc stats auxHits).2.cache_hits : Nat) : Int)
            = 4294967296 - (bc.health_stats.cache_hits - stats.cache_hits)))
    ∧ (bc_report_compute_health_stats bc stats auxHits).2.remote_lookups < 4294967296
    ∧ (bc_report_compute_health_stats bc stats auxHits).2.service_failures < 4294967296
    ∧ (bc_report_compute_health_stats bc stats auxHits).2.uncategorized < 4294967296
    ∧ (bc_report_compute_health_stats bc stats auxHits).2.cache_hits < 4294967296 := by
  obtain ⟨-, h2, h3, h4, h5⟩ := compute_deltas bc stats auxHits
  refine ⟨fun h => ⟨h3, fun h' => ?_⟩, fun h => ⟨h4, fun h' => ?_⟩,
    fun h => ⟨h5, fun h' => ?_⟩, fun h => ⟨h2, fun ha h' => ?_⟩, ?_, ?_, ?_, ?_⟩ <;> omega

/-- C2, witness: the amended statement at the baseline of tens and the
snapshot of fives, where every counter regressed by 5. -/
theorem C2_regressed_counter_wraps_witness :
    ex_snapshot_five.cloud_lookups < ex_baseline_ten.cloud_lookups
    ∧ (((bc_report_compute_health_stats (session_with_baseline ex_baseline_ten)
          ex_snapshot_five 0).2.remote_lookups : Nat) : Int)
        = 4294967296 - (10 - 5) :=
  ⟨by decide,
   ((C2_regressed_counter_wraps (session_with_baseline ex_baseline_ten)
      ex_snapshot_five 0).1 (by decide)).2 (by decide)⟩

/-- C3, counterexample: from the all-zero baseline, the one snapshot with
4294967295 cache hits and auxiliary hit count 1 is non-decreasing, its
cumulative cache hits are 4294967296, and the emitted cache_hits delta is 0;
likewise the one snapshot with 4294967296 cloud lookups gives the
remote_lookups delta 0.  The sum of the deltas is not the final value minus
the initial baseline. -/
theorem C3_telescoping_counterexample :
    nondecreasing fsm_bc_session.zero.health_stats.cache_hits
        ([({ fsm_url_stats.zero with cache_hits := 4294967295 }, 1)].map cum_cache_hits) = true
    ∧ delta_sum (fun h => h.cache_hits)
        (compute_run fsm_bc_session.zero
          [({ fsm_url_stats.zero with cache_hits := 4294967295 }, 1)]).2 = 0
    ∧ last_value fsm_bc_session.zero.health_stats.cache_hits
          ([({ fsm_url_stats.zero with cache_hits := 4294967295 }, 1)].map cum_cache_hits)
        - fsm_bc_session.zero.health_stats.cache_hits = 4294967296
    ∧ nondecreasing fsm_bc_session.zero.health_stats.cloud_lookups
        ([({ fsm_url_stats.zero with cloud_lookups := 4294967296 }, 0)].map cum_cloud_lookups)
        = true
    ∧ delta_sum (fun h => h.remote_lookups)
        (compute_run fsm_bc_session.zero
          [({ fsm_url_stats.zero with cloud_lookups := 4294967296 }, 0)]).2 = 0
    ∧ last_value fsm_bc_session.zero.health_stats.cloud_lookups
          ([({ fsm_url_stats.zero with cloud_lookups := 4294967296 }, 0)].map cum_cloud_lookups)
        - fsm_bc_session.zero.health_stats.cloud_lookups = 4294967296 := by
  decide

/-- C3, amended: for every initial baseline and every finite sequence of
snapshots, the sum of the deltas of a counter field is congruent modulo 2^32 to
the final snapshot's cumulative value minus the initial baseline's value; and
when the cumulative values are non-decreasing and not below the initial
baseline, the sum equals that difference exactly if and only if the growth of
each interval (a snapshot's value minus the value before it, the first one
against the initial baseline) is below 2^32.  This holds for remote_lookups,
service_failures and uncategorized, and for cache_hits with the engine's cache
hits plus the auxiliary hit counter as cumulative value. -/
theorem C3_telescoping_mod (bc : fsm_bc_session) (snaps : List (fsm_url_stats × Nat)) :
    (delta_sum (fun h => h.remote_lookups) (compute_run bc snaps).2 % 4294967296
        = (last_value bc.health_stats.cloud_lookups (snaps.map cum_cloud_lookups)
            - bc.health_stats.cloud_lookups) % 4294967296
      ∧ delta_sum (fun h => h.service_failures) (compute_run bc snaps).2 % 4294967296
        = (last_value bc.health_stats.categorization_failures
              (snaps.map cum_categorization_failures)
            - bc.health_stats.categorization_failures) % 4294967296
      ∧ delta_sum (fun h => h.uncategorized) (compute_run bc snaps).2 % 4294967296
        = (last_value bc.health_stats.uncategorized (snaps.map cum_uncategorized)
            - bc.health_stats.uncategorized) % 4294967296
      ∧ delta_sum (fun h => h.cache_hits) (compute_run bc snaps).2 % 4294967296
        = (last_value bc.health_stats.cache_hits (snaps.map cum_cache_hits)
            - bc.health_stats.cache_hits) % 4294967296)
    ∧ (nondecreasing bc.health_stats.cloud_lookups (snaps.map cum_cloud_lookups) = true →
        (delta_sum (fun h => h.remote_lookups) (compute_run bc snaps).2
            = last_value bc.health_stats.cloud_lookups (snaps.map cum_cloud_lookups)
              - bc.health_stats.cloud_lookups
          ↔ steps_below bc.health_stats.cloud_lookups (snaps.map cum_cloud_lookups) = true))
    ∧ (nondecreasing bc.health_stats.categorization_failures
          (snaps.map cum_categorization_failures) = true →
        (delta_sum (fun h => h.service_failures) (compute_run bc snaps).2
            = last_value bc.health_stats.categorization_failures
                (snaps.map cum_categorization_failures)
              - bc.health_stats.categorization_failures
          ↔ steps_below bc.health_stats.categorization_failures
              (snaps.map cum_categorization_failures) = true))
    ∧ (nondecreasing bc.health_stats.uncategorized (snaps.map cum_uncategorized) = true →
        (delta_sum (fun h => h.uncategorized) (compute_run bc snaps).2
            = last_value bc.health_stats.uncategorized (snaps.map cum_uncategorized)
              - bc.health_stats.uncategorized
          ↔ steps_below bc.health_stats.uncategorized (snaps.map cum_uncategorized) = true))
    ∧ (nondecreasing bc.health_stats.cache_hits (snaps.map cum_cache_hits) = true →
        (delta_sum (fun h => h.cache_hits) (compute_run bc snaps).2
            = last_value bc.health_stats.cache_hits (snaps.map cum_cache_hits)
              - bc.health_stats.cache_hits
          ↔ steps_below bc.health_stats.cache_hits (snaps.map cum_cache_hits) = true)) := by
  unfold delta_sum
  rw [compute_run_remote_lookups, compute_run_service_failures, compute_run_uncategorized,
    compute_run_cache_hits]
  exact ⟨⟨sum_wrapped_deltas_mod _ _, sum_wrapped_deltas_mod _ _, sum_wrapped_deltas_mod _ _,
      sum_wrapped_deltas_mod _ _⟩,
    sum_wrapped_deltas_exact_iff _ _, sum_wrapped_deltas_exact_iff _ _,
    sum_wrapped_deltas_exact_iff _ _, sum_wrapped_deltas_exact_iff _ _⟩

/-- C3, witness: over the two snapshots of `ex_long_run`, which grow by
4294967295 each, the remote_lookups deltas sum exactly to 8589934590, a total
growth above 2^32; and over the three growing snapshots of `ex_growing` the
cache_hits deltas sum to (171 + 9) - 100 = 80. -/
theorem C3_telescoping_mod_witness :
    (nondecreasing fsm_bc_session.zero.health_stats.cloud_lookups
          (ex_long_run.map cum_cloud_lookups) = true
      ∧ steps_below fsm_bc_session.zero.health_stats.cloud_lookups
          (ex_long_run.map cum_cloud_lookups) = true
      ∧ delta_sum (fun h => h.remote_lookups) (compute_run fsm_bc_session.zero ex_long_run).2
        = last_value fsm_bc_session.zero.health_stats.cloud_lookups
            (ex_long_run.map cum_cloud_lookups)
          - fsm_bc_session.zero.health_stats.cloud_lookups
      ∧ last_value fsm_bc_session.zero.health_stats.cloud_lookups
            (ex_long_run.map cum_cloud_lookups)
          - fsm_bc_session.zero.health_stats.cloud_lookups = 8589934590)
    ∧ (nondecreasing (session_with_baseline ex_baseline).health_stats.cache_hits
          (ex_growing.map cum_cache_hits) = true
      ∧ delta_sum (fun h => h.cache_hits)
          (compute_run (session_with_baseline ex_baseline) ex_growing).2
        = last_value (session_with_baseline ex_baseline).health_stats.cache_hits
            (ex_growing.map cum_cache_hits)
          - (session_with_baseline ex_baseline).health_stats.cache_hits
      ∧ last_value (session_with_baseline ex_baseline).health_stats.cache_hits
            (ex_growing.map cum_cache_hits)
          - (session_with_baseline ex_baseline).health_stats.cache_hits = 80) :=
  ⟨⟨by decide, by decide,
    ((C3_telescoping_mod fsm_bc_session.zero ex_long_run).2.1 (by decide)).2 (by decide),
    by decide⟩,
   ⟨by decide,
    ((C3_telescoping_mod (session_with_baseline ex_baseline) ex_growing).2.2.2.2
      (by decide)).2 (by decide),
    by decide⟩⟩

/-- C4: after bc_report_compute_health_stats the stored baseline holds the
snapshot's raw cloud_lookups, categorization_failures and uncategorized, and
its cache_hits is the int64_t sum snapshot.cache_hits + auxHits, which is the
exact sum whenever auxHits is a 32-bit value and the sum is representable;
after bc_report_health_stats the window start stat_report_ts equals now and
the stored baseline is the one bc_report_compute_health_stats stores. -/
theorem C4_baseline_and_window_advance (bc : fsm_bc_session) (stats : fsm_url_stats)
    (auxHits : Nat) (session : fsm_session) (now : Int) :
    (bc_report_compute_health_stats bc stats auxHits).1.health_stats.cloud_lookups
        = stats.cloud_lookups
    ∧ (bc_report_compute_health_stats bc stats auxHits).1.health_stats.categorization_failures
        = stats.categorization_failures
    ∧ (bc_report_compute_health_stats bc stats auxHits).1.health_stats.uncategorized
        = stats.uncategorized
    ∧ (bc_report_compute_health_stats bc stats auxHits).1.health_stats.cache_hits
        = wrapI64 (stats.cache_hits + ((auxHits % 4294967296 : Nat) : Int))
    ∧ (auxHits < 4294967296 → -9223372036854775808 ≤ stats.cache_hits →
        stats.cache_hits + (auxHits : Int) ≤ 9223372036854775807 →
        (bc_report_compute_health_stats bc stats auxHits).1.health_stats.cache_hits
          = stats.cache_hits + (auxHits : Int))
    ∧ (bc_report_health_stats bc session stats auxHits now).1.stat_report_ts = now
    ∧ (bc_report_health_stats bc session stats auxHits now).1.health_stats
        = (bc_report_compute_health_stats bc stats auxHits).1.health_stats := by
  refine ⟨rfl, rfl, rfl, rfl, fun h1 h2 h3 => ?_, rfl, rfl⟩
  simp only [bc_report_compute_health_stats, wrapI64]
  omega

/-- C4, witness: baseline (100, 20), snapshot (150, 25) and auxHits 5 store
the cache-hit baseline 155. -/
theorem C4_baseline_and_window_advance_witness :
    (bc_report_compute_health_stats (session_with_baseline ex_baseline) ex_snapshot
        5).1.health_stats.cache_hits = ex_snapshot.cache_hits + ((5 : Nat) : Int)
    ∧ ex_snapshot.cache_hits + ((5 : Nat) : Int) = 155 :=
  ⟨(C4_baseline_and_window_advance (session_with_baseline ex_baseline) ex_snapshot 5
      ex_host_session 0).2.2.2.2.1 (by decide) (by decide) (by decide),
   by decide⟩

/-- C5, counterexample: from the all-zero session, a first report on engine
counters (100 cache hits, 20 cloud lookups) with auxiliary count 5 and a second
on (150, 25) with auxiliary count 7 give the second report cache_hits 52 and
total_lookups 57, where the claim has (150 - 100) + 7 = 57 for cache_hits and
50 + 5 + 7 = 62 for total_lookups; with the first
auxiliary count 0 instead the second report has cache_hits 57, so the result
depends on the first auxiliary count. -/
theorem C5_aux_hits_counterexample :
    (bc_report_compute_health_stats
        (bc_report_compute_health_stats fsm_bc_session.zero ex_baseline 5).1
        ex_snapshot 7).2.cache_hits = 52
    ∧ (bc_report_compute_health_stats
        (bc_report_compute_health_stats fsm_bc_session.zero ex_baseline 5).1
        ex_snapshot 7).2.total_lookups = 57
    ∧ toU32 ((ex_snapshot.cache_hits - ex_baseline.cache_hits) + 7) = 57
    ∧ toU32 ((ex_snapshot.cache_hits - ex_baseline.cache_hits)
        + (ex_snapshot.cloud_lookups - ex_baseline.cloud_lookups) + 7) = 62
    ∧ (bc_report_compute_health_stats
        (bc_report_compute_health_stats fsm_bc_session.zero ex_baseline 0).1
        ex_snapshot 7).2.cache_hits = 57 := by
  decide

/-- C5, amended: the auxiliary hit count of a period is added in full to the
difference against the stored baseline, and the stored cache-hit baseline has
the auxiliary count of the previous period folded in: for two consecutive
reports with engine cache hits c1 then c2, cloud lookups cloud1 then cloud2 and
auxiliary counts a1 then a2, the second report has, modulo 2^32, cache_hits =
(c2 - (c1 + a1)) + a2 and total_lookups = (c2 - (c1 + a1)) + (cloud2 - cloud1)
+ a2. -/
theorem C5_aux_hits_against_folded_baseline (bc : fsm_bc_session)
    (s1 s2 : fsm_url_stats) (a1 a2 : Nat) :
    (((bc_report_compute_health_stats (bc_report_compute_health_stats bc s1 a1).1
          s2 a2).2.cache_hits : Nat) : Int)
        = ((s2.cache_hits - (s1.cache_hits + (a1 : Int))) + (a2 : Int)) % 4294967296
    ∧ (((bc_report_compute_health_stats (bc_report_compute_health_stats bc s1 a1).1
          s2 a2).2.total_lookups : Nat) : Int)
        = ((s2.cache_hits - (s1.cache_hits + (a1 : Int)))
            + (s2.cloud_lookups - s1.cloud_lookups) + (a2 : Int)) % 4294967296 := by
  obtain ⟨h1, h2, -, -, -⟩ :=
    compute_deltas (bc_report_compute_health_stats bc s1 a1).1 s2 a2
  have hb := stored_cache_hits_mod bc s1 a1
  have hc : (bc_report_compute_health_stats bc s1 a1).1.health_stats.cloud_lookups
      = s1.cloud_lookups := rfl
  rw [h1, h2, hc]
  constructor <;> omega

/-! ## Claims on the scheduler -/

theorem periodic_spec (m : Mem) (session : fsm_session) (p : Ptr) (bc : fsm_bc_session)
    (now : Int) (stats : fsm_url_stats) (dns : Nat)
    (hc : session.handler_ctxt = some p) (hh : m.heap p = some bc) :
    fsm_bc_periodic m session now stats dns
      = if m.cache_mgr.initialized = true
            ∧ now - bc.stat_report_ts ≥ bc.health_stats_report_interval then
          (m.store p (bc_report_health_stats bc session stats dns now).1,
            [(bc_report_health_stats bc session stats dns now).2])
        else (m, []) := by
  unfold fsm_bc_periodic
  simp only [hc, hh]
  by_cases hi : m.cache_mgr.initialized = true
  · by_cases hd : now - bc.stat_report_ts ≥ bc.health_stats_report_interval
    · simp [hi, hd]
    · simp [hi, hd]
  · simp [hi]

theorem periodic_not_due (m : Mem) (session : fsm_session) (p : Ptr) (bc : fsm_bc_session)
    (now : Int) (stats : fsm_url_stats) (dns : Nat)
    (hc : session.handler_ctxt = some p) (hh : m.heap p = some bc)
    (hd : now - bc.stat_report_ts < bc.health_stats_report_interval) :
    fsm_bc_periodic m session now stats dns = (m, []) := by
  rw [periodic_spec m session p bc now stats dns hc hh]
  have : ¬ (now - bc.stat_report_ts ≥ bc.health_stats_report_interval) := by omega
  simp [this]

theorem periodic_run_idle (session : fsm_session) (p : Ptr) (t : Int)
    (hc : session.handler_ctxt = some p) (ticks : List tick) :
    ∀ (m : Mem) (bc : fsm_bc_session), m.heap p = some bc → bc.stat_report_ts = t →
      (∀ tk ∈ ticks, tk.now < t + bc.health_stats_report_interval) →
      periodic_run m session ticks = (m, []) := by
  induction ticks with
  | nil => intro m bc _ _ _; rfl
  | cons tk rest ih =>
    intro m bc hh ht hw
    have h1 := hw tk (List.mem_cons_self _ _)
    have hnd := periodic_not_due m session p bc tk.now tk.stats tk.dns_cache_hits hc hh
      (by omega)
    have hrest := ih m bc hh ht (fun x hx => hw x (List.mem_cons_of_mem _ hx))
    simp only [periodic_run, hnd, hrest, List.nil_append]

theorem store_heap_same (m : Mem) (p : Ptr) (bc : fsm_bc_session) :
    (m.store p bc).heap p = some bc := by
  simp [Mem.store]

/-- C6, counterexample: a session with window start 100 and interval 600 whose
configuration sets the interval string to "-5" gets the interval -5 from
fsm_bc_update; a tick at time 97 (the clock went back 3 seconds) then computes
a report, whose observation window starts at 100 and ends at 97. -/
theorem C6_window_order_counterexample :
    interval_at (fsm_bc_update (ex_mem (ex_bc_session 600 100))
        (host_session (conf_interval "-5"))) 16 = some (-5)
    ∧ windows (fsm_bc_periodic
        (fsm_bc_update (ex_mem (ex_bc_session 600 100)) (host_session (conf_interval "-5")))
        (host_session (conf_interval "-5")) 97 fsm_url_stats.zero 0).2 = [(100, 97)]
    ∧ ¬ ((100 : Int) ≤ 97) := by
  decide

/-- C6, amended: for every session state whose report interval is not negative
and every tick time now at which fsm_bc_periodic computes a report, the window
start is not after now, and every emitted observation window runs from the old
window start to now, so started_at <= ended_at. -/
theorem C6_window_start_le_now (m : Mem) (session : fsm_session) (p : Ptr)
    (bc : fsm_bc_session) (now : Int) (stats : fsm_url_stats) (dns : Nat)
    (hc : session.handler_ctxt = some p) (hh : m.heap p = some bc)
    (hi : 0 ≤ bc.health_stats_report_interval)
    (hr : (fsm_bc_periodic m session now stats dns).2 ≠ []) :
    bc.stat_report_ts ≤ now
    ∧ ∀ r ∈ (fsm_bc_periodic m session now stats dns).2,
        r.report.ow.started_at = bc.stat_report_ts ∧ r.report.ow.ended_at = now
        ∧ r.report.ow.started_at ≤ r.report.ow.ended_at := by
  rw [periodic_spec m session p bc now stats dns hc hh] at hr ⊢
  by_cases hd : m.cache_mgr.initialized = true
      ∧ now - bc.stat_report_ts ≥ bc.health_stats_report_interval
  · have hle : bc.stat_report_ts ≤ now := by omega
    refine ⟨hle, ?_⟩
    intro r hrm
    simp only [hd, and_self, if_true, List.mem_singleton] at hrm
    subst hrm
    exact ⟨rfl, rfl, hle⟩
  · simp [hd] at hr

/-- C6, witness: interval 600, window start 100, tick at 700. -/
theorem C6_window_start_le_now_witness :
    (fsm_bc_periodic (ex_mem (ex_bc_session 600 100)) ex_host_session 700
        fsm_url_stats.zero 0).2 ≠ []
    ∧ (ex_bc_session 600 100).stat_report_ts ≤ 700 :=
  ⟨by decide,
   (C6_window_start_le_now (ex_mem (ex_bc_session 600 100)) ex_host_session 16
      (ex_bc_session 600 100) 700 fsm_url_stats.zero 0 rfl rfl (by decide) (by decide)).1⟩

/-- C7: for a session with a handler context and an initialized manager,
fsm_bc_periodic at time now computes a report if and only if
now - stat_report_ts >= health_stats_report_interval; with interval 600 and
window start t0 a tick at t0+500 computes no report and changes nothing, and a
tick at t0+650 computes exactly one report, whose observation window is
[t0, t0+650], and leaves the window start at t0+650. -/
theorem C7_due_iff_interval_elapsed (m : Mem) (session : fsm_session) (p : Ptr)
    (bc : fsm_bc_session) (stats : fsm_url_stats) (dns : Nat)
    (hc : session.handler_ctxt = some p) (hm : m.cache_mgr.initialized = true)
    (hh : m.heap p = some bc) :
    (∀ now : Int, (fsm_bc_periodic m session now stats dns).2 ≠ []
        ↔ now - bc.stat_report_ts ≥ bc.health_stats_report_interval)
    ∧ (bc.health_stats_report_interval = 600 →
        fsm_bc_periodic m session (bc.stat_report_ts + 500) stats dns = (m, [])
        ∧ windows (fsm_bc_periodic m session (bc.stat_report_ts + 650) stats dns).2
            = [(bc.stat_report_ts, bc.stat_report_ts + 650)]
        ∧ window_start_at (fsm_bc_periodic m session (bc.stat_report_ts + 650) stats dns).1 p
            = some (bc.stat_report_ts + 650)) := by
  refine ⟨fun now => ?_, fun h600 => ⟨?_, ?_, ?_⟩⟩
  · rw [periodic_spec m session p bc now stats dns hc hh]
    by_cases hd : now - bc.stat_report_ts ≥ bc.health_stats_report_interval
    · simp [hm, hd]
    · simp [hm, hd]
  · exact periodic_not_due m session p bc _ stats dns hc hh (by omega)
  · rw [periodic_spec m session p bc _ stats dns hc hh]
    have hd : bc.stat_report_ts + 650 - bc.stat_report_ts ≥ bc.health_stats_report_interval := by
      omega
    simp only [hm, hd, and_self, if_true]
    rfl
  · rw [periodic_spec m session p bc _ stats dns hc hh]
    have hd : bc.stat_report_ts + 650 - bc.stat_report_ts ≥ bc.health_stats_report_interval := by
      omega
    simp only [hm, hd, and_self, if_true, window_start_at, store_heap_same]
    rfl

/-- C7, witness: interval 600 and window start 1000; the tick at 1500 sends
nothing, the tick at 1650 sends the report of the window [1000, 1650]. -/
theorem C7_due_iff_interval_elapsed_witness :
    (fsm_bc_periodic (ex_mem (ex_bc_session 600 1000)) ex_host_session
        ((ex_bc_session 600 1000).stat_report_ts + 500) fsm_url_stats.zero 0).2 = []
    ∧ windows (fsm_bc_periodic (ex_mem (ex_bc_session 600 1000)) ex_host_session
        ((ex_bc_session 600 1000).stat_report_ts + 650) fsm_url_stats.zero 0).2
        = [((ex_bc_session 600 1000).stat_report_ts,
            (ex_bc_session 600 1000).stat_report_ts + 650)]
    ∧ (ex_bc_session 600 1000).stat_report_ts + 650 = 1650 :=
  ⟨congrArg Prod.snd
      ((C7_due_iff_interval_elapsed (ex_mem (ex_bc_session 600 1000)) ex_host_session 16
        (ex_bc_session 600 1000) fsm_url_stats.zero 0 rfl rfl rfl).2 rfl).1,
   ((C7_due_iff_interval_elapsed (ex_mem (ex_bc_session 600 1000)) ex_host_session 16
        (ex_bc_session 600 1000) fsm_url_stats.zero 0 rfl rfl rfl).2 rfl).2.1,
   by decide⟩

/-- C8: at every tick time now at which the due condition is false
(now - stat_report_ts < health_stats_report_interval) fsm_bc_periodic returns
the state it was given, manager and every plugin session with its window
start, stored baseline, connectivity-failure accumulator, interval and topic,
and sends no report. -/
theorem C8_not_due_changes_nothing (m : Mem) (session : fsm_session) (now : Int)
    (stats : fsm_url_stats) (dns : Nat)
    (hd : ∀ (p : Ptr) (bc : fsm_bc_session), session.handler_ctxt = some p →
      m.heap p = some bc → now - bc.stat_report_ts < bc.health_stats_report_interval) :
    (fsm_bc_periodic m session now stats dns).1 = m
    ∧ (fsm_bc_periodic m session now stats dns).2 = []
    ∧ ∀ q : Ptr, (fsm_bc_periodic m session now stats dns).1.heap q = m.heap q := by
  have h : fsm_bc_periodic m session now stats dns = (m, []) := by
    cases hc : session.handler_ctxt with
    | none => simp [fsm_bc_periodic, hc]
    | some p =>
      cases hh : m.heap p with
      | none => simp [fsm_bc_periodic, hc, hh]
      | some bc => exact periodic_not_due m session p bc now stats dns hc hh (hd p bc hc hh)
  rw [h]
  exact ⟨rfl, rfl, fun _ => rfl⟩

/-- C8, witness: interval 600, window start 1000, tick at 1500. -/
theorem C8_not_due_changes_nothing_witness :
    (1500 : Int) - (ex_bc_session 600 1000).stat_report_ts
        < (ex_bc_session 600 1000).health_stats_report_interval
    ∧ (fsm_bc_periodic (ex_mem (ex_bc_session 600 1000)) ex_host_session 1500
        ex_snapshot 3).2 = [] :=
  ⟨by decide,
   (C8_not_due_changes_nothing (ex_mem (ex_bc_session 600 1000)) ex_host_session 1500
      ex_snapshot 3 (by
        intro p bc hc hh
        have hp : p = 16 := (Option.some.inj hc).symm
        subst hp
        have hb : bc = ex_bc_session 600 1000 := (Option.some.inj hh).symm
        subst hb
        decide)).2.1⟩

theorem periodic_length_le_one (m : Mem) (session : fsm_session) (now : Int)
    (stats : fsm_url_stats) (dns : Nat) :
    (fsm_bc_periodic m session now stats dns).2.length ≤ 1 := by
  cases hc : session.handler_ctxt with
  | none => simp [fsm_bc_periodic, hc]
  | some p =>
    cases hh : m.heap p with
    | none => simp [fsm_bc_periodic, hc, hh]
    | some bc =>
      rw [periodic_spec m session p bc now stats dns hc hh]
      split <;> simp

/-- C9: one call of fsm_bc_periodic sends at most one report, however late it
is, and the window of that report runs from the old window start to now; and
after a tick at time t that sent a report, for a session with interval I (in
particular I > 0), no later tick at a time t' with t <= t' < t + I sends a report (nor changes
the state). -/
theorem C9_one_report_per_interval (m : Mem) (session : fsm_session) (p : Ptr)
    (bc : fsm_bc_session) (t : Int) (stats : fsm_url_stats) (dns : Nat)
    (ticks : List tick)
    (hc : session.handler_ctxt = some p) (hh : m.heap p = some bc)
    (hr : (fsm_bc_periodic m session t stats dns).2 ≠ [])
    (hw : ∀ tk ∈ ticks, t ≤ tk.now ∧ tk.now < t + bc.health_stats_report_interval) :
    (∀ (m1 : Mem) (now1 : Int) (stats1 : fsm_url_stats) (dns1 : Nat),
        (fsm_bc_periodic m1 session now1 stats1 dns1).2.length ≤ 1)
    ∧ windows (fsm_bc_periodic m session t stats dns).2 = [(bc.stat_report_ts, t)]
    ∧ (periodic_run (fsm_bc_periodic m session t stats dns).1 session ticks).2 = []
    ∧ (periodic_run (fsm_bc_periodic m session t stats dns).1 session ticks).1
        = (fsm_bc_periodic m session t stats dns).1 := by
  refine ⟨fun m1 now1 stats1 dns1 => periodic_length_le_one m1 session now1 stats1 dns1, ?_⟩
  rw [periodic_spec m session p bc t stats dns hc hh] at hr ⊢
  by_cases hd : m.cache_mgr.initialized = true
      ∧ t - bc.stat_report_ts ≥ bc.health_stats_report_interval
  · simp only [hd, and_self, if_true]
    have hrun := periodic_run_idle session p t hc ticks
      (m.store p (bc_report_health_stats bc session stats dns t).1)
      (bc_report_health_stats bc session stats dns t).1
      (store_heap_same _ _ _) rfl (fun tk htk => (hw tk htk).2)
    rw [hrun]
    exact ⟨rfl, rfl, rfl⟩
  · simp [hd] at hr

/-- C9, witness: interval 600, window start 1000; the late tick at 2500 sends
one report, and the ticks at 2500, 2800 and 3099 that follow send none. -/
theorem C9_one_report_per_interval_witness :
    windows (fsm_bc_periodic (ex_mem (ex_bc_session 600 1000)) ex_host_session 2500
        ex_snapshot 3).2 = [((ex_bc_session 600 1000).stat_report_ts, 2500)]
    ∧ (periodic_run
        (fsm_bc_periodic (ex_mem (ex_bc_session 600 1000)) ex_host_session 2500
          ex_snapshot 3).1
        ex_host_session ex_ticks).2 = [] :=
  ⟨(C9_one_report_per_interval (ex_mem (ex_bc_session 600 1000)) ex_host_session 16
      (ex_bc_session 600 1000) 2500 ex_snapshot 3 ex_ticks rfl rfl (by decide) (by decide)).2.1,
   (C9_one_report_per_interval (ex_mem (ex_bc_session 600 1000)) ex_host_session 16
      (ex_bc_session 600 1000) 2500 ex_snapshot 3 ex_ticks rfl rfl (by decide) (by decide)).2.2.1⟩

/-! ## Claims on the configuration update -/

theorem strtoul_no_conversion (str : String) (h : no_conversion str = true) :
    strtoul str = 0 := by
  unfold no_conversion at h
  have hv : strtoul_digits (strtoul_body str.toList) 0 = 0 := by
    cases hb : strtoul_body str.toList with
    | nil => rfl
    | cons c r =>
      rw [hb] at h
      simp only [Bool.not_eq_true'] at h
      simp [strtoul_digits, h]
  unfold strtoul
  simp only [hv]
  split
  · omega
  · split <;> rfl

theorem update_interval (m : Mem) (session : fsm_session) (p : Ptr) (bc : fsm_bc_session)
    (hc : session.handler_ctxt = some p) (hh : m.heap p = some bc) :
    interval_at (fsm_bc_update m session) p
      = some (match session.get_config "wc_health_stats_interval_secs" with
          | none => BC_REPORT_HEALTH_STATS_INTERVAL
          | some str => toInt32 (strtoul str)) := by
  unfold fsm_bc_update interval_at
  simp only [hc, hh, store_heap_same, Option.map_some']
  cases session.get_config "wc_health_stats_interval_secs" <;> rfl

/-- C10, counterexample: with the interval key set to the non-numeric string
"abc", for which strtoul converts nothing, fsm_bc_update sets the report
interval to 0, not to the default 600. -/
theorem C10_unparseable_interval_counterexample :
    no_conversion "abc" = true
    ∧ interval_at (fsm_bc_update (ex_mem (ex_bc_session 600 100))
        (host_session (conf_interval "abc"))) 16 = some 0
    ∧ (0 : Int) ≠ BC_REPORT_HEALTH_STATS_INTERVAL := by
  decide

/-- C10, amended: for every session with a handler context, fsm_bc_update sets
the report interval to the default 600 seconds when the interval config key is
absent; when the key is present the interval is what strtoul reads from its
string value, converted to int, which is 0 for a string in which strtoul finds
no number (for example a non-numeric string). -/
theorem C10_update_interval (m : Mem) (session : fsm_session) (p : Ptr)
    (bc : fsm_bc_session)
    (hc : session.handler_ctxt = some p) (hh : m.heap p = some bc) :
    (session.get_config "wc_health_stats_interval_secs" = none →
        interval_at (fsm_bc_update m session) p = some 600)
    ∧ (∀ str : String, session.get_config "wc_health_stats_interval_secs" = some str →
        interval_at (fsm_bc_update m session) p = some (toInt32 (strtoul str)))
    ∧ (∀ str : String, session.get_config "wc_health_stats_interval_secs" = some str →
        no_conversion str = true →
        interval_at (fsm_bc_update m session) p = some 0) := by
  have h := update_interval m session p bc hc hh
  refine ⟨fun hn => ?_, fun str hs => ?_, fun str hs hno => ?_⟩
  · rw [h, hn]
    rfl
  · rw [h, hs]
  · rw [h, hs]
    simp only [strtoul_no_conversion str hno]
    rfl

/-- C10, witness: without the interval key the interval is 600, even from a
session whose interval was 60. -/
theorem C10_update_interval_witness :
    ex_host_session.get_config "wc_health_stats_interval_secs" = none
    ∧ interval_at (fsm_bc_update (ex_mem (ex_bc_session 60 100)) ex_host_session) 16
        = some 600 :=
  ⟨rfl,
   (C10_update_interval (ex_mem (ex_bc_session 60 100)) ex_host_session 16
      (ex_bc_session 60 100) rfl rfl).1 rfl⟩

theorem update_match (conv : String → Int) (d : Int) (cfg topic : Option String)
    (bc : fsm_bc_session) :
    ({ (match cfg with
        | none => { bc with health_stats_report_interval := d }
        | some str =>
          let interval : Int := conv str
          { { bc with health_stats_report_interval := d } with
            health_stats_report_interval := interval }) with
        health_stats_report_topic := topic } : fsm_bc_session)
      = { bc with
          health_stats_report_interval :=
            (match cfg with
              | none => d
              | some str => conv str)
          health_stats_report_topic := topic } := by
  cases cfg <;> rfl

theorem update_heap (m : Mem) (session : fsm_session) (p : Ptr) (bc : fsm_bc_session)
    (hc : session.handler_ctxt = some p) (hh : m.heap p = some bc) :
    (fsm_bc_update m session).heap p
      = some { bc with
          health_stats_report_interval :=
            (match session.get_config "wc_health_stats_interval_secs" with
              | none => BC_REPORT_HEALTH_STATS_INTERVAL
              | some str => toInt32 (strtoul str))
          health_stats_report_topic := session.get_config "wc_health_stats_topic" } := by
  unfold fsm_bc_update
  simp only [hc, hh]
  exact (store_heap_same _ _ _).trans
    (congrArg some (update_match (fun s => toInt32 (strtoul s)) _ _ _ bc))

theorem update_cache_mgr (m : Mem) (session : fsm_session) :
    (fsm_bc_update m session).cache_mgr = m.cache_mgr := by
  unfold fsm_bc_update
  cases session.handler_ctxt with
  | none => rfl
  | some p =>
    cases hh : m.heap p with
    | none => simp only [hh]
    | some bc => simp only [hh]; rfl

/-- C11: for a session whose interval is 600 and window start is t0, after
fsm_bc_update reads the interval config value "60" the window start and the
stored baseline are unchanged, the interval is 60, and the next
fsm_bc_periodic tick at time now computes a report if and only if
now - t0 >= 60; the tick at t0+60 is due, while before the update, under 600,
it sends nothing. -/
theorem C11_update_interval_takes_effect (m : Mem) (session : fsm_session) (p : Ptr)
    (bc : fsm_bc_session) (stats : fsm_url_stats) (dns : Nat)
    (hc : session.handler_ctxt = some p) (hm : m.cache_mgr.initialized = true)
    (hh : m.heap p = some bc) (h600 : bc.health_stats_report_interval = 600)
    (hcfg : session.get_config "wc_health_stats_interval_secs" = some "60") :
    window_start_at (fsm_bc_update m session) p = some bc.stat_report_ts
    ∧ baseline_at (fsm_bc_update m session) p = some bc.health_stats
    ∧ interval_at (fsm_bc_update m session) p = some 60
    ∧ (∀ now : Int,
        (fsm_bc_periodic (fsm_bc_update m session) session now stats dns).2 ≠ []
          ↔ now - bc.stat_report_ts ≥ 60)
    ∧ (fsm_bc_periodic (fsm_bc_update m session) session (bc.stat_report_ts + 60)
        stats dns).2 ≠ []
    ∧ (fsm_bc_periodic m session (bc.stat_report_ts + 60) stats dns).2 = [] := by
  have hu := update_heap m session p bc hc hh
  rw [hcfg] at hu
  have h60 : toInt32 (strtoul "60") = 60 := by decide
  simp only [h60] at hu
  have hmu : (fsm_bc_update m session).cache_mgr.initialized = true := by
    rw [update_cache_mgr]; exact hm
  have hiff : ∀ now : Int,
      (fsm_bc_periodic (fsm_bc_update m session) session now stats dns).2 ≠ []
        ↔ now - bc.stat_report_ts ≥ 60 := by
    intro now
    rw [periodic_spec (fsm_bc_update m session) session p _ now stats dns hc hu]
    by_cases hd : now - bc.stat_report_ts ≥ 60
    · simp [hmu, hd]
    · simp [hmu, hd]
  refine ⟨?_, ?_, ?_, hiff, (hiff _).2 (by omega), ?_⟩
  · simp only [window_start_at, hu, Option.map_some']
  · simp only [baseline_at, hu, Option.map_some']
  · simp only [interval_at, hu, Option.map_some']
  · rw [periodic_not_due m session p bc _ stats dns hc hh (by omega)]

/-- C11, witness: interval 600 and window start 1000, configuration value
"60": the tick at 1060 is due after the update. -/
theorem C11_update_interval_takes_effect_witness :
    interval_at (fsm_bc_update (ex_mem (ex_bc_session 600 1000))
        (host_session (conf_interval "60"))) 16 = some 60
    ∧ (fsm_bc_periodic (fsm_bc_update (ex_mem (ex_bc_session 600 1000))
          (host_session (conf_interval "60")))
        (host_session (conf_interval "60")) ((ex_bc_session 600 1000).stat_report_ts + 60)
        ex_snapshot 3).2 ≠ [] :=
  ⟨(C11_update_interval_takes_effect (ex_mem (ex_bc_session 600 1000))
      (host_session (conf_interval "60")) 16 (ex_bc_session 600 1000) ex_snapshot 3
      rfl rfl rfl rfl (by decide)).2.2.1,
   (C11_update_interval_takes_effect (ex_mem (ex_bc_session 600 1000))
      (host_session (conf_interval "60")) 16 (ex_bc_session 600 1000) ex_snapshot 3
      rfl rfl rfl rfl (by decide)).2.2.2.2.1⟩

/-! ## Claims on the accumulator, the gauges and the totals -/

/-- C12: bc_report_compute_health_stats reports connectivity_failures as the
value the connectivity-failure accumulator had before the call, converted to
uint32_t (the value itself when it is a 32-bit unsigned value), whatever the
snapshot, the auxiliary hit count and the stored baseline are, and leaves the
accumulator at zero. -/
theorem C12_connectivity_failures_reported_and_reset (bc : fsm_bc_session)
    (stats : fsm_url_stats) (auxHits : Nat) :
    (bc_report_compute_health_stats bc stats auxHits).2.connectivity_failures
        = toU32 bc.bc_offline.connection_failures
    ∧ (0 ≤ bc.bc_offline.connection_failures →
        bc.bc_offline.connection_failures < 4294967296 →
        (((bc_report_compute_health_stats bc stats auxHits).2.connectivity_failures : Nat) : Int)
          = bc.bc_offline.connection_failures)
    ∧ (∀ (baseline stats1 : fsm_url_stats) (aux1 : Nat),
        (bc_report_compute_health_stats { bc with health_stats := baseline } stats1
            aux1).2.connectivity_failures
          = (bc_report_compute_health_stats bc stats auxHits).2.connectivity_failures)
    ∧ (bc_report_compute_health_stats bc stats auxHits).1.bc_offline.connection_failures
        = 0 := by
  refine ⟨rfl, fun h0 h1 => ?_, fun _ _ _ => rfl, rfl⟩
  simp only [bc_report_compute_health_stats, toU32_cast]
  omega

/-- C12, witness: an accumulator at 3 is reported as 3. -/
theorem C12_connectivity_failures_reported_and_reset_witness :
    (((bc_report_compute_health_stats (session_with_failures 3) ex_snapshot
        5).2.connectivity_failures : Nat) : Int)
      = (session_with_failures 3).bc_offline.connection_failures
    ∧ (session_with_failures 3).bc_offline.connection_failures = 3 :=
  ⟨(C12_connectivity_failures_reported_and_reset (session_with_failures 3) ex_snapshot
      5).2.1 (by decide) (by decide),
   rfl⟩

/-- C13: the min_latency, max_latency, avg_latency, cached_entries and
cache_size of a report are the snapshot's min_lookup_latency,
max_lookup_latency, avg_lookup_latency, cache_entries and cache_size converted
to uint32_t, and they are the same for every session state (stored baseline
included) and every auxiliary hit count. -/
theorem C13_gauges_pass_through (bc : fsm_bc_session) (stats : fsm_url_stats)
    (auxHits : Nat) :
    ((bc_report_compute_health_stats bc stats auxHits).2.min_latency
        = toU32 stats.min_lookup_latency
      ∧ (bc_report_compute_health_stats bc stats auxHits).2.max_latency
        = toU32 stats.max_lookup_latency
      ∧ (bc_report_compute_health_stats bc stats auxHits).2.avg_latency
        = toU32 stats.avg_lookup_latency
      ∧ (bc_report_compute_health_stats bc stats auxHits).2.cached_entries
        = toU32 stats.cache_entries
      ∧ (bc_report_compute_health_stats bc stats auxHits).2.cache_size
        = toU32 stats.cache_size)
    ∧ ∀ (bc1 : fsm_bc_session) (aux1 : Nat),
        (bc_report_compute_health_stats bc1 stats aux1).2.min_latency
          = (bc_report_compute_health_stats bc stats auxHits).2.min_latency
        ∧ (bc_report_compute_health_stats bc1 stats aux1).2.max_latency
          = (bc_report_compute_health_stats bc stats auxHits).2.max_latency
        ∧ (bc_report_compute_health_stats bc1 stats aux1).2.avg_latency
          = (bc_report_compute_health_stats bc stats auxHits).2.avg_latency
        ∧ (bc_report_compute_health_stats bc1 stats aux1).2.cached_entries
          = (bc_report_compute_health_stats bc stats auxHits).2.cached_entries
        ∧ (bc_report_compute_health_stats bc1 stats aux1).2.cache_size
          = (bc_report_compute_health_stats bc stats auxHits).2.cache_size :=
  ⟨⟨rfl, rfl, rfl, rfl, rfl⟩, fun _ _ => ⟨rfl, rfl, rfl, rfl, rfl⟩⟩

/-- C19: in every report of bc_report_compute_health_stats, for every stored
baseline, snapshot and auxiliary hit count (regressed counters included),
total_lookups equals cache_hits + remote_lookups modulo 2^32. -/
theorem C19_total_is_cache_hits_plus_remote (bc : fsm_bc_session) (stats : fsm_url_stats)
    (auxHits : Nat) :
    (bc_report_compute_health_stats bc stats auxHits).2.total_lookups
      = ((bc_report_compute_health_stats bc stats auxHits).2.cache_hits
          + (bc_report_compute_health_stats bc stats auxHits).2.remote_lookups)
        % 4294967296 := by
  obtain ⟨h1, h2, h3, -, -⟩ := compute_deltas bc stats auxHits
  omega

/-! ## The ordered tree -/

theorem cmp_eq_zero_iff (a b : Ptr) : fsm_bc_session_cmp a b = 0 ↔ a = b := by
  unfold fsm_bc_session_cmp
  by_cases h : a = b
  · simp [h]
  · by_cases h2 : a < b <;> simp [h, h2]

theorem find_cons (e : Ptr × Ptr) (rest : List (Ptr × Ptr)) (k : Ptr) :
    ds_tree_find fsm_bc_session_cmp (e :: rest) k
      = if k = e.1 then some e.2 else ds_tree_find fsm_bc_session_cmp rest k := by
  simp only [ds_tree_find, cmp_eq_zero_iff]

theorem find_eq_none_iff (t : List (Ptr × Ptr)) (k : Ptr) :
    ds_tree_find fsm_bc_session_cmp t k = none ↔ k ∉ t.map Prod.fst := by
  induction t with
  | nil => simp [ds_tree_find]
  | cons e rest ih =>
    rw [find_cons]
    by_cases h : k = e.1
    · simp [h]
    · simp [h, ih]

theorem find_some_mem (t : List (Ptr × Ptr)) (k n : Ptr) :
    ds_tree_find fsm_bc_session_cmp t k = some n → (k, n) ∈ t := by
  induction t with
  | nil => simp [ds_tree_find]
  | cons e rest ih =>
    rw [find_cons]
    by_cases h : k = e.1
    · intro hs
      simp only [h, if_true, Option.some.injEq] at hs
      rw [h, ← hs]
      exact List.mem_cons_self _ _
    · intro hs
      simp only [h, if_false] at hs
      exact List.mem_cons_of_mem _ (ih hs)

theorem insert_perm (t : List (Ptr × Ptr)) (n k : Ptr) :
    List.Perm (ds_tree_insert fsm_bc_session_cmp t n k) ((k, n) :: t) := by
  induction t with
  | nil => exact List.Perm.refl _
  | cons e rest ih =>
    simp only [ds_tree_insert]
    split
    · exact List.Perm.refl _
    · exact (List.Perm.cons e ih).trans (List.Perm.swap _ _ _)

theorem find_insert_same (t : List (Ptr × Ptr)) (n k : Ptr)
    (h : ds_tree_find fsm_bc_session_cmp t k = none) :
    ds_tree_find fsm_bc_session_cmp (ds_tree_insert fsm_bc_session_cmp t n k) k = some n := by
  induction t with
  | nil => simp [ds_tree_insert, find_cons]
  | cons e rest ih =>
    rw [find_cons] at h
    by_cases hk : k = e.1
    · simp [hk] at h
    · simp only [hk, if_false] at h
      simp only [ds_tree_insert]
      split
      · simp [find_cons]
      · rw [find_cons]
        simp only [hk, if_false]
        exact ih h

theorem find_insert_other (t : List (Ptr × Ptr)) (n k k1 : Ptr) (hne : k1 ≠ k) :
    ds_tree_find fsm_bc_session_cmp (ds_tree_insert fsm_bc_session_cmp t n k) k1
      = ds_tree_find fsm_bc_session_cmp t k1 := by
  induction t with
  | nil => simp [ds_tree_insert, ds_tree_find, cmp_eq_zero_iff, hne]
  | cons e rest ih =>
    simp only [ds_tree_insert]
    split
    · rw [find_cons]
      simp [hne]
    · rw [find_cons, find_cons, ih]

theorem find_remove_other (t : List (Ptr × Ptr)) (p k : Ptr)
    (h : ∀ n, (k, n) ∈ t → n ≠ p) :
    ds_tree_find fsm_bc_session_cmp (ds_tree_remove t p) k
      = ds_tree_find fsm_bc_session_cmp t k := by
  induction t with
  | nil => rfl
  | cons e rest ih =>
    have ih1 := ih (fun n hn => h n (List.mem_cons_of_mem _ hn))
    unfold ds_tree_remove at ih1 ⊢
    by_cases hp : e.2 = p
    · have hk : k ≠ e.1 := by
        intro hke
        exact h e.2 (by rw [hke]; exact List.mem_cons_self _ _) hp
      subst hp
      simp only [List.filter_cons, ne_eq, not_true_eq_false, decide_False, Bool.false_eq_true,
        if_false, find_cons, hk]
      exact ih1
    · simp only [List.filter_cons, hp, ne_eq, not_false_eq_true, decide_True, if_true, find_cons]
      rw [ih1]

theorem find_remove_self (t : List (Ptr × Ptr)) (p k : Ptr)
    (hk : (t.map Prod.fst).Nodup)
    (h : ds_tree_find fsm_bc_session_cmp t k = some p) :
    ds_tree_find fsm_bc_session_cmp (ds_tree_remove t p) k = none := by
  rw [find_eq_none_iff]
  intro hmem
  obtain ⟨e, he, hek⟩ := List.mem_map.1 hmem
  unfold ds_tree_remove at he
  obtain ⟨het, hen⟩ := List.mem_filter.1 he
  have hkp := find_some_mem t k p h
  have heq : e = (k, p) := List.inj_on_of_nodup_map hk het hkp hek
  rw [heq] at hen
  simp at hen

theorem remove_eq_self (t : List (Ptr × Ptr)) (p : Ptr) (h : p ∉ t.map Prod.snd) :
    ds_tree_remove t p = t := by
  unfold ds_tree_remove
  rw [List.filter_eq_self]
  intro e he
  have : e.2 ≠ p := fun hp => h (List.mem_map.2 ⟨e, he, hp⟩)
  simpa using this

/-! ## Claims on the registry -/

theorem lookup_found (m : Mem) (session p : Ptr) (calloc : Option Ptr)
    (h : session_of m session = some p) :
    fsm_bc_lookup_session m session calloc = (m, some p) := by
  unfold session_of at h
  unfold fsm_bc_lookup_session
  simp only [h]

theorem lookup_absent (m : Mem) (session a : Ptr) (h : session_of m session = none) :
    fsm_bc_lookup_session m session (some a)
      = ({ cache_mgr :=
             { m.cache_mgr with
               fsm_sessions :=
                 ds_tree_insert fsm_bc_session_cmp m.cache_mgr.fsm_sessions a session }
           heap := fun q => if q = a then some fsm_bc_session.zero else m.heap q },
          some a) := by
  unfold session_of at h
  unfold fsm_bc_lookup_session
  simp only [h]

theorem lookup_calloc_null (m : Mem) (session : Ptr) (h : session_of m session = none) :
    fsm_bc_lookup_session m session none = (m, none) := by
  unfold session_of at h
  unfold fsm_bc_lookup_session
  simp only [h]

theorem lookup_session_of (m : Mem) (session p : Ptr) (calloc : Option Ptr)
    (h : (fsm_bc_lookup_session m session calloc).2 = some p) :
    session_of (fsm_bc_lookup_session m session calloc).1 session = some p := by
  cases hs : session_of m session with
  | some q =>
    rw [lookup_found m session q calloc hs] at h ⊢
    rw [hs]
    exact h
  | none =>
    cases calloc with
    | none =>
      rw [lookup_calloc_null m session hs] at h
      cases h
    | some a =>
      rw [lookup_absent m session a hs] at h ⊢
      have ha : a = p := Option.some.inj h
      subst ha
      exact find_insert_same _ _ _ hs

theorem lookup_keys_nodup (m : Mem) (session : Ptr) (calloc : Option Ptr)
    (hk : (registry_keys m).Nodup) :
    (registry_keys (fsm_bc_lookup_session m session calloc).1).Nodup := by
  cases hs : session_of m session with
  | some q => rw [lookup_found m session q calloc hs]; exact hk
  | none =>
    cases calloc with
    | none => rw [lookup_calloc_null m session hs]; exact hk
    | some a =>
      rw [lookup_absent m session a hs]
      unfold registry_keys at hk ⊢
      have hp := (insert_perm m.cache_mgr.fsm_sessions a session).map Prod.fst
      refine (List.Perm.nodup_iff hp).2 ?_
      simp only [List.map_cons]
      exact List.nodup_cons.2 ⟨(find_eq_none_iff _ _).1 hs, hk⟩

theorem delete_absent (m : Mem) (session : Ptr) (h : session_of m session = none) :
    fsm_bc_delete_session m session = m := by
  unfold session_of at h
  unfold fsm_bc_delete_session
  simp only [h]

theorem delete_found (m : Mem) (session p : Ptr) (h : session_of m session = some p) :
    fsm_bc_delete_session m session
      = { cache_mgr :=
            { m.cache_mgr with
              fsm_sessions := ds_tree_remove m.cache_mgr.fsm_sessions p }
          heap := fun q => if q = p then none else m.heap q } := by
  unfold session_of at h
  unfold fsm_bc_delete_session
  simp only [h]
  rfl

theorem delete_session_of_self (m : Mem) (session : Ptr) (hk : (registry_keys m).Nodup) :
    session_of (fsm_bc_delete_session m session) session = none := by
  cases hs : session_of m session with
  | none => rw [delete_absent m session hs]; exact hs
  | some p =>
    rw [delete_found m session p hs]
    exact find_remove_self _ _ _ hk hs

theorem delete_session_of_other (m : Mem) (session k : Ptr)
    (hn : (registry_nodes m).Nodup) (hne : k ≠ session) :
    session_of (fsm_bc_delete_session m session) k = session_of m k
    ∧ ∀ n, session_of m k = some n → (fsm_bc_delete_session m session).heap n = m.heap n := by
  cases hs : session_of m session with
  | none => rw [delete_absent m session hs]; exact ⟨rfl, fun _ _ => rfl⟩
  | some p =>
    rw [delete_found m session p hs]
    have hsp := find_some_mem _ _ _ hs
    have hother : ∀ n, (k, n) ∈ m.cache_mgr.fsm_sessions → n ≠ p := by
      intro n hmem hnp
      have := List.inj_on_of_nodup_map hn hmem hsp hnp
      exact hne (congrArg Prod.fst this)
    refine ⟨find_remove_other _ _ _ hother, ?_⟩
    intro n hkn
    have hnp : n ≠ p := hother n (find_some_mem _ _ _ hkn)
    simp only [hnp, if_false]

theorem delete_keys_nodup (m : Mem) (session : Ptr) (hk : (registry_keys m).Nodup) :
    (registry_keys (fsm_bc_delete_session m session)).Nodup := by
  cases hs : session_of m session with
  | none => rw [delete_absent m session hs]; exact hk
  | some p =>
    rw [delete_found m session p hs]
    unfold registry_keys at hk ⊢
    exact hk.sublist ((List.filter_sublist _).map Prod.fst)

/-- C14: two consecutive calls of fsm_bc_lookup_session with one identity, the
first returning a session p (allocation succeeding), return the same session:
the second call returns p and leaves the state as the first call left it, so
it inserts nothing; a change written through p after the first call is what
the second lookup finds at the session it returns; and a registry that holds
at most one session per identity still does after a lookup. -/
theorem C14_lookup_twice_same_session (m : Mem) (session p : Ptr)
    (calloc1 calloc2 : Option Ptr)
    (h1 : (fsm_bc_lookup_session m session calloc1).2 = some p) :
    fsm_bc_lookup_session (fsm_bc_lookup_session m session calloc1).1 session calloc2
        = ((fsm_bc_lookup_session m session calloc1).1, some p)
    ∧ (∀ bc : fsm_bc_session,
        fsm_bc_lookup_session ((fsm_bc_lookup_session m session calloc1).1.store p bc)
            session calloc2
          = ((fsm_bc_lookup_session m session calloc1).1.store p bc, some p)
        ∧ ((fsm_bc_lookup_session m session calloc1).1.store p bc).heap p = some bc)
    ∧ ((registry_keys m).Nodup →
        (registry_keys (fsm_bc_lookup_session m session calloc1).1).Nodup
        ∧ (registry_keys (fsm_bc_lookup_session
            (fsm_bc_lookup_session m session calloc1).1 session calloc2).1).Nodup) := by
  have hs := lookup_session_of m session p calloc1 h1
  refine ⟨lookup_found _ session p calloc2 hs, fun bc => ⟨?_, store_heap_same _ _ _⟩,
    fun hk => ⟨lookup_keys_nodup m session calloc1 hk,
      lookup_keys_nodup _ session calloc2 (lookup_keys_nodup m session calloc1 hk)⟩⟩
  exact lookup_found _ session p calloc2 hs

/-- C14, witness: in the empty registry the identity 8 gets the session
allocated at 16, and a second lookup, whatever its allocation would return,
gives 16 again and leaves the one entry. -/
theorem C14_lookup_twice_same_session_witness :
    (fsm_bc_lookup_session ex_empty_registry 8 (some 16)).2 = some 16
    ∧ (fsm_bc_lookup_session (fsm_bc_lookup_session ex_empty_registry 8 (some 16)).1 8
        (some 64)).2 = some 16
    ∧ (fsm_bc_lookup_session (fsm_bc_lookup_session ex_empty_registry 8 (some 16)).1 8
        (some 64)).1.cache_mgr.fsm_sessions = [(8, 16)] :=
  ⟨by decide,
   congrArg Prod.snd
     (C14_lookup_twice_same_session ex_empty_registry 8 16 (some 16) (some 64)
       (by decide)).1,
   by decide⟩

/-- C15: in a registry with at most one session per identity, for an identity
that has a session, fsm_bc_delete_session followed by fsm_bc_lookup_session
(allocation succeeding at a) returns the session at a, linked under the
identity, which is the all-zero session: its baseline counters are all zero
and it has nothing of the old session, also when a is the address of the old
one. -/
theorem C15_delete_then_lookup_is_fresh (m : Mem) (session p a : Ptr)
    (hk : (registry_keys m).Nodup) (hs : session_of m session = some p) :
    (fsm_bc_delete_session m session).heap p = none
    ∧ (fsm_bc_lookup_session (fsm_bc_delete_session m session) session (some a)).2 = some a
    ∧ (fsm_bc_lookup_session (fsm_bc_delete_session m session) session (some a)).1.heap a
        = some fsm_bc_session.zero
    ∧ baseline_at
        (fsm_bc_lookup_session (fsm_bc_delete_session m session) session (some a)).1 a
        = some fsm_url_stats.zero
    ∧ session_of
        (fsm_bc_lookup_session (fsm_bc_delete_session m session) session (some a)).1 session
        = some a := by
  have hd := delete_session_of_self m session hk
  have hl := lookup_absent (fsm_bc_delete_session m session) session a hd
  have hheap : (fsm_bc_lookup_session (fsm_bc_delete_session m session) session
      (some a)).1.heap a = some fsm_bc_session.zero := by
    rw [hl]
    simp only [if_true]
  refine ⟨?_, ?_, hheap, ?_, ?_⟩
  · rw [delete_found m session p hs]
    simp only [if_true]
  · rw [hl]
  · unfold baseline_at
    rw [hheap]
    rfl
  · exact lookup_session_of _ session a (some a) (by rw [hl])

/-- C15, witness: the session of identity 8 in `ex_registry` has the baseline
of tens; after delete and lookup the session of 8, allocated at 16 again, has
the all-zero baseline. -/
theorem C15_delete_then_lookup_is_fresh_witness :
    baseline_at ex_registry 16 = some ex_baseline_ten
    ∧ baseline_at
        (fsm_bc_lookup_session (fsm_bc_delete_session ex_registry 8) 8 (some 16)).1 16
        = some fsm_url_stats.zero :=
  ⟨by decide,
   (C15_delete_then_lookup_is_fresh ex_registry 8 16 16 (by decide) (by decide)).2.2.2.1⟩

/-- C16: fsm_bc_delete_session removes exactly the session keyed by the
identity: in a registry with at most one session per identity no session is
found for the identity afterwards; when no plugin session is linked twice,
every other identity maps to the same session as before and that session is
untouched; when the identity has no session the state is unchanged; and
fsm_bc_exit on an uninitialized manager changes nothing. -/
theorem C16_delete_removes_exactly_one (m : Mem) (session : Ptr) :
    ((registry_keys m).Nodup →
        session_of (fsm_bc_delete_session m session) session = none
        ∧ (registry_keys (fsm_bc_delete_session m session)).Nodup)
    ∧ ((registry_nodes m).Nodup → ∀ k : Ptr, k ≠ session →
        session_of (fsm_bc_delete_session m session) k = session_of m k
        ∧ ∀ n, session_of m k = some n →
            (fsm_bc_delete_session m session).heap n = m.heap n)
    ∧ (session_of m session = none → fsm_bc_delete_session m session = m)
    ∧ (m.cache_mgr.initialized = false → fsm_bc_exit m session = m) := by
  refine ⟨fun hk => ⟨delete_session_of_self m session hk, delete_keys_nodup m session hk⟩,
    fun hn k hne => delete_session_of_other m session k hn hne,
    fun hs => delete_absent m session hs, fun hi => ?_⟩
  unfold fsm_bc_exit
  simp only [hi, if_true]

/-- C16, witness: deleting identity 8 from `ex_registry` leaves no session for
8 and keeps the session 48 of identity 12. -/
theorem C16_delete_removes_exactly_one_witness :
    session_of (fsm_bc_delete_session ex_registry 8) 8 = none
    ∧ session_of (fsm_bc_delete_session ex_registry 8) 12 = session_of ex_registry 12
    ∧ session_of ex_registry 12 = some 48
    ∧ fsm_bc_exit Mem.initial 8 = Mem.initial :=
  ⟨((C16_delete_removes_exactly_one ex_registry 8).1 (by decide)).1,
   ((C16_delete_removes_exactly_one ex_registry 8).2.1 (by decide) 12 (by decide)).1,
   by decide,
   (C16_delete_removes_exactly_one Mem.initial 8).2.2.2 rfl⟩

theorem cmp_cases (x y : Nat) :
    (x = y ∧ fsm_bc_session_cmp x y = 0) ∨ (x < y ∧ fsm_bc_session_cmp x y = -1)
      ∨ (y < x ∧ fsm_bc_session_cmp x y = 1) := by
  unfold fsm_bc_session_cmp
  by_cases h : x = y
  · simp [h]
  · by_cases h2 : x < y
    · simp [h, h2]
    · have h3 : y < x := by omega
      simp [h, h2, h3]

theorem cmp_total_order (a b : Nat) :
    (fsm_bc_session_cmp a b = 0 ↔ a = b)
    ∧ (fsm_bc_session_cmp a b = -1 ↔ a < b)
    ∧ (fsm_bc_session_cmp a b = 1 ↔ a > b)
    ∧ fsm_bc_session_cmp a b = - fsm_bc_session_cmp b a
    ∧ (∀ c : Nat, fsm_bc_session_cmp a b = -1 → fsm_bc_session_cmp b c = -1 →
        fsm_bc_session_cmp a c = -1)
    ∧ (∀ c : Nat, fsm_bc_session_cmp a b ≤ 0 → fsm_bc_session_cmp b c ≤ 0 →
        fsm_bc_session_cmp a c ≤ 0) := by
  refine ⟨?_, ?_, ?_, ?_, fun c => ?_, fun c => ?_⟩
  · rcases cmp_cases a b with ⟨h, h'⟩ | ⟨h, h'⟩ | ⟨h, h'⟩ <;> constructor <;> intro h1 <;> omega
  · rcases cmp_cases a b with ⟨h, h'⟩ | ⟨h, h'⟩ | ⟨h, h'⟩ <;> constructor <;> intro h1 <;> omega
  · rcases cmp_cases a b with ⟨h, h'⟩ | ⟨h, h'⟩ | ⟨h, h'⟩ <;> constructor <;> intro h1 <;> omega
  · rcases cmp_cases a b with ⟨h, h'⟩ | ⟨h, h'⟩ | ⟨h, h'⟩ <;>
      rcases cmp_cases b a with ⟨g, g'⟩ | ⟨g, g'⟩ | ⟨g, g'⟩ <;> omega
  · rcases cmp_cases a b with ⟨h, h'⟩ | ⟨h, h'⟩ | ⟨h, h'⟩ <;>
      rcases cmp_cases b c with ⟨g, g'⟩ | ⟨g, g'⟩ | ⟨g, g'⟩ <;>
      rcases cmp_cases a c with ⟨f, f'⟩ | ⟨f, f'⟩ | ⟨f, f'⟩ <;> omega
  · rcases cmp_cases a b with ⟨h, h'⟩ | ⟨h, h'⟩ | ⟨h, h'⟩ <;>
      rcases cmp_cases b c with ⟨g, g'⟩ | ⟨g, g'⟩ | ⟨g, g'⟩ <;>
      rcases cmp_cases a c with ⟨f, f'⟩ | ⟨f, f'⟩ | ⟨f, f'⟩ <;> omega

/-- C18: fsm_bc_session_cmp orders identities by their numeric value and is a
total order: it returns 0 exactly when a = b, -1 exactly when a < b and 1
exactly when a > b, so cmp (a, b) = - cmp (b, a), and the order is
transitive. -/
theorem C18_session_cmp_total_order (a b : Ptr) :
    (fsm_bc_session_cmp a b = 0 ↔ a = b)
    ∧ (fsm_bc_session_cmp a b = -1 ↔ a < b)
    ∧ (fsm_bc_session_cmp a b = 1 ↔ a > b)
    ∧ fsm_bc_session_cmp a b = - fsm_bc_session_cmp b a
    ∧ (∀ c : Ptr, fsm_bc_session_cmp a b = -1 → fsm_bc_session_cmp b c = -1 →
        fsm_bc_session_cmp a c = -1)
    ∧ (∀ c : Ptr, fsm_bc_session_cmp a b ≤ 0 → fsm_bc_session_cmp b c ≤ 0 →
        fsm_bc_session_cmp a c ≤ 0) :=
  cmp_total_order a b

/-- C18, witness: 1 < 2 < 3 as identities. -/
theorem C18_session_cmp_total_order_witness :
    fsm_bc_session_cmp 1 2 = -1 ∧ fsm_bc_session_cmp 2 3 = -1
    ∧ fsm_bc_session_cmp 1 3 = -1 :=
  ⟨by decide, by decide,
   (C18_session_cmp_total_order 1 2).2.2.2.2.1 3 (by decide) (by decide)⟩

/-! ## Claims on the initialization -/

theorem modify_heap_same (m : Mem) (p : Ptr) (bc : fsm_bc_session)
    (f : fsm_bc_session → fsm_bc_session) (h : m.heap p = some bc) :
    (m.modify p f).heap p = some (f bc) := by
  unfold Mem.modify
  simp only [h, store_heap_same]

theorem modify_cache_mgr (m : Mem) (p : Ptr) (f : fsm_bc_session → fsm_bc_session) :
    (m.modify p f).cache_mgr = m.cache_mgr := by
  unfold Mem.modify
  cases m.heap p <;> rfl

theorem plugin_init_null (m : Mem) (fsm_bc_init : Bool) (calloc : Option Ptr) (now : Int) :
    brightcloud_plugin_init m none fsm_bc_init calloc now = (m, none, -1) := rfl

theorem plugin_init_again (m : Mem) (sp p : Ptr) (s : fsm_session) (bc : fsm_bc_session)
    (fsm_bc_init : Bool) (calloc : Option Ptr) (now : Int)
    (hm : m.cache_mgr.initialized = true) (hs : session_of m sp = some p)
    (hh : m.heap p = some bc) (hb : bc.initialized = true) :
    brightcloud_plugin_init m (some (sp, s)) fsm_bc_init calloc now = (m, some s, 0) := by
  unfold brightcloud_plugin_init
  simp only [hm, Bool.true_eq_false, if_false, lookup_found m sp p calloc hs, hh, hb, if_true]

theorem plugin_init_first (m m1 m2 : Mem) (sp p : Ptr) (s : fsm_session)
    (bc : fsm_bc_session) (fsm_bc_init : Bool) (calloc : Option Ptr) (now : Int)
    (hm : (if m.cache_mgr.initialized = false then
            if fsm_bc_init = false then none
            else some { m with cache_mgr := { initialized := true, fsm_sessions := [] } }
          else some m) = some m1)
    (hl : fsm_bc_lookup_session m1 sp calloc = (m2, some p))
    (hh : m2.heap p = some bc) (hb : bc.initialized = false) :
    brightcloud_plugin_init m (some (sp, s)) fsm_bc_init calloc now
      = ((((fsm_bc_update (m2.store p { bc with session := some sp })
              { s with ops_set := true, handler_ctxt := some p }).modify p
            (fun bc => { bc with stat_report_ts := now })).modify p
            (fun bc => { bc with min_latency := LONG_MAX, initialized := true })).modify p
            (fun bc => { bc with bc_offline := { connection_failures := 0 } }),
          some { s with ops_set := true, handler_ctxt := some p, cat_ops_set := true }, 0) := by
  unfold brightcloud_plugin_init
  simp only [hm, hl, hh, hb, Bool.false_eq_true, if_false]

theorem init_tail (m2 : Mem) (sp p : Ptr) (s : fsm_session) (bc : fsm_bc_session)
    (now : Int) :
    ((((fsm_bc_update (m2.store p { bc with session := some sp })
            { s with ops_set := true, handler_ctxt := some p }).modify p
          (fun bc => { bc with stat_report_ts := now })).modify p
          (fun bc => { bc with min_latency := LONG_MAX, initialized := true })).modify p
          (fun bc => { bc with bc_offline := { connection_failures := 0 } })).cache_mgr
        = m2.cache_mgr
    ∧ ∃ bc1 : fsm_bc_session,
        ((((fsm_bc_update (m2.store p { bc with session := some sp })
              { s with ops_set := true, handler_ctxt := some p }).modify p
            (fun bc => { bc with stat_report_ts := now })).modify p
            (fun bc => { bc with min_latency := LONG_MAX, initialized := true })).modify p
            (fun bc => { bc with bc_offline := { connection_failures := 0 } })).heap p
          = some bc1
        ∧ bc1.initialized = true ∧ bc1.min_latency = LONG_MAX ∧ bc1.stat_report_ts = now
        ∧ bc1.health_stats = bc.health_stats ∧ bc1.bc_offline.connection_failures = 0
        ∧ bc1.session = some sp := by
  refine ⟨?_, ?_⟩
  · rw [modify_cache_mgr, modify_cache_mgr, modify_cache_mgr, update_cache_mgr]
    rfl
  · have h3 : (m2.store p { bc with session := some sp }).heap p
        = some { bc with session := some sp } := store_heap_same _ _ _
    have h4 := update_heap (m2.store p { bc with session := some sp })
      { s with ops_set := true, handler_ctxt := some p } p _ rfl h3
    have h5 := modify_heap_same _ p _ (fun bc => { bc with stat_report_ts := now }) h4
    have h6 := modify_heap_same _ p _
      (fun bc => { bc with min_latency := LONG_MAX, initialized := true }) h5
    have h7 := modify_heap_same _ p _
      (fun bc => { bc with bc_offline := { connection_failures := 0 } }) h6
    exact ⟨_, h7, rfl, rfl, rfl, rfl, rfl, rfl⟩

theorem lookup_absent_facts (m : Mem) (session a : Ptr)
    (habs : session_of m session = none) :
    fsm_bc_lookup_session m session (some a)
        = ((fsm_bc_lookup_session m session (some a)).1, some a)
    ∧ (fsm_bc_lookup_session m session (some a)).1.heap a = some fsm_bc_session.zero
    ∧ session_of (fsm_bc_lookup_session m session (some a)).1 session = some a
    ∧ (fsm_bc_lookup_session m session (some a)).1.cache_mgr.initialized
        = m.cache_mgr.initialized := by
  have hl := lookup_absent m session a habs
  have hso := lookup_session_of m session a (some a) (by rw [hl])
  refine ⟨?_, ?_, hso, ?_⟩
  · rw [hl]
  · rw [hl]
    simp only [if_true]
  · rw [hl]

theorem plugin_init_creates (m m1 : Mem) (sp a : Ptr) (s : fsm_session)
    (fsm_bc_init : Bool) (now : Int)
    (hm : (if m.cache_mgr.initialized = false then
            if fsm_bc_init = false then none
            else some { m with cache_mgr := { initialized := true, fsm_sessions := [] } }
          else some m) = some m1)
    (hi : m1.cache_mgr.initialized = true) (habs : session_of m1 sp = none) :
    (brightcloud_plugin_init m (some (sp, s)) fsm_bc_init (some a) now).2.2 = 0
    ∧ (brightcloud_plugin_init m (some (sp, s)) fsm_bc_init (some a) now).1.cache_mgr.initialized
        = true
    ∧ session_of (brightcloud_plugin_init m (some (sp, s)) fsm_bc_init (some a) now).1 sp
        = some a
    ∧ ∃ bc1 : fsm_bc_session,
        (brightcloud_plugin_init m (some (sp, s)) fsm_bc_init (some a) now).1.heap a = some bc1
        ∧ bc1.initialized = true ∧ bc1.min_latency = LONG_MAX ∧ bc1.stat_report_ts = now
        ∧ bc1.health_stats = fsm_url_stats.zero ∧ bc1.bc_offline.connection_failures = 0
        ∧ bc1.session = some sp := by
  obtain ⟨hl, hh, hso, hini⟩ := lookup_absent_facts m1 sp a habs
  rw [plugin_init_first m m1 _ sp a s fsm_bc_session.zero fsm_bc_init (some a) now hm hl hh rfl]
  obtain ⟨hc, bc1, h1, h2⟩ :=
    init_tail (fsm_bc_lookup_session m1 sp (some a)).1 sp a s fsm_bc_session.zero now
  refine ⟨rfl, ?_, ?_, bc1, h1, h2⟩
  · simp only [hc, hini]
    exact hi
  · unfold session_of at hso ⊢
    simp only [hc]
    exact hso

/-- C20: brightcloud_plugin_init is idempotent on an initialized session: a
call with a NULL session returns -1 and changes no state; for a session that
is initialized (manager initialized, plugin session linked and marked
initialized) a call returns 0 and returns the state it was given, whatever the
clock, the configuration of the host session, the result of fsm_bc_init and of
the allocation are; and a first call that succeeds (fsm_bc_init and the
allocation succeed, for an identity without a session or with a manager not
yet initialized) returns 0 and leaves such a state, so a second call returns 0
and changes nothing. -/
theorem C20_plugin_init_idempotent :
    (∀ (m : Mem) (fsm_bc_init : Bool) (calloc : Option Ptr) (now : Int),
        brightcloud_plugin_init m none fsm_bc_init calloc now = (m, none, -1))
    ∧ (∀ (m : Mem) (sp p : Ptr) (s : fsm_session) (bc : fsm_bc_session)
        (fsm_bc_init : Bool) (calloc : Option Ptr) (now : Int),
        m.cache_mgr.initialized = true → session_of m sp = some p →
        m.heap p = some bc → bc.initialized = true →
        brightcloud_plugin_init m (some (sp, s)) fsm_bc_init calloc now = (m, some s, 0))
    ∧ (∀ (m : Mem) (sp a : Ptr) (s : fsm_session) (now1 : Int),
        (m.cache_mgr.initialized = false ∨ session_of m sp = none) →
        (brightcloud_plugin_init m (some (sp, s)) true (some a) now1).2.2 = 0
        ∧ ∀ (s1 : fsm_session) (fsm_bc_init : Bool) (calloc : Option Ptr) (now2 : Int),
            brightcloud_plugin_init
                (brightcloud_plugin_init m (some (sp, s)) true (some a) now1).1
                (some (sp, s1)) fsm_bc_init calloc now2
              = ((brightcloud_plugin_init m (some (sp, s)) true (some a) now1).1,
                  some s1, 0)) := by
  refine ⟨fun m i c now => rfl,
    fun m sp p s bc i c now hm hs hh hb => plugin_init_again m sp p s bc i c now hm hs hh hb,
    fun m sp a s now1 h => ?_⟩
  have key : ∃ m1 : Mem,
      (if m.cache_mgr.initialized = false then
          if true = false then none
          else some { m with cache_mgr := { initialized := true, fsm_sessions := [] } }
        else some m) = some m1
      ∧ m1.cache_mgr.initialized = true ∧ session_of m1 sp = none := by
    cases hi : m.cache_mgr.initialized with
    | false =>
      exact ⟨{ m with cache_mgr := { initialized := true, fsm_sessions := [] } },
        by simp, rfl, rfl⟩
    | true =>
      rcases h with h | h
      · rw [hi] at h; cases h
      · exact ⟨m, by simp, hi, h⟩
  obtain ⟨m1, hm, hi1, habs⟩ := key
  obtain ⟨hret, hinit, hso, bc1, h1, h2, -⟩ :=
    plugin_init_creates m m1 sp a s true now1 hm hi1 habs
  exact ⟨hret, fun s1 i c now2 =>
    plugin_init_again _ sp a s1 bc1 i c now2 hinit hso h1 h2⟩

/-- C20, witness: the first call for the host session at 8, on the state
before any call, at time 1000, returns 0; the second call at time 2000, with
another configuration and with fsm_bc_init and the allocation failing, returns
0 as well. -/
theorem C20_plugin_init_idempotent_witness :
    (brightcloud_plugin_init Mem.initial (some (8, ex_host_session)) true (some 16)
        1000).2.2 = 0
    ∧ (brightcloud_plugin_init
        (brightcloud_plugin_init Mem.initial (some (8, ex_host_session)) true (some 16)
          1000).1
        (some (8, host_session (conf_interval "60"))) false none 2000).2.2 = 0 :=
  ⟨(C20_plugin_init_idempotent.2.2 Mem.initial 8 16 ex_host_session 1000 (Or.inl rfl)).1,
   congrArg (fun r => r.2.2)
     ((C20_plugin_init_idempotent.2.2 Mem.initial 8 16 ex_host_session 1000
        (Or.inl rfl)).2 (host_session (conf_interval "60")) false none 2000)⟩

end FsmBc
